import Mathlib

/- Verification development for the dfe-curriculum-ontology repository.

The six Python scripts under scripts/ are shallowly embedded below, one
namespace per script:

  - SanityToTtl        : scripts/sanity_to_ttl.py
  - DynamicSubjects    : scripts/sanity_to_ttl_dynamic_subjects.py
  - MergeTtls          : scripts/merge_ttls.py
  - ExportToNeo4j      : scripts/export_to_neo4j.py
  - Validation         : scripts/validation.py

Pure helpers (string conversion, triple construction) are translated to Lean
functions; effectful code (database sessions, file IO, logging) is modelled by
explicit state passing and action traces. rdflib graphs are modelled as finite
sets of triples, since an rdflib Graph is a set of triples. -/

/-- Object position of an RDF triple: a URI or a literal carrying a language
tag (written with a leading at-sign) or a datatype URI; the empty tag denotes
a plain literal. -/
inductive Node where
  | uri (u : String)
  | lit (value : String) (tag : String)
  deriving DecidableEq, Repr

/-- RDF triple with a URI subject, URI predicate, and a Node object, the shape
of every triple the scripts construct. -/
structure Triple where
  subj : String
  pred : String
  obj : Node
  deriving DecidableEq, Repr

/-- RDF graph as a finite set of triples, the denotation of an rdflib Graph. -/
abbrev RDFGraph := Finset Triple

/-- Test whether the first list starts with the second. -/
def listStartsWith : List Char → List Char → Bool
  | _, [] => true
  | [], _ :: _ => false
  | c :: cs, p :: ps => c == p && listStartsWith cs ps

/-- Fuel-bounded worker for Python str.replace: replace non-overlapping
occurrences of pat left to right. The fuel is the length of the input, which
bounds the recursion because a nonempty pattern consumes at least one
character per replacement. -/
def pyReplaceFuel (pat rep : List Char) : Nat → List Char → List Char
  | _, [] => []
  | 0, l => l
  | fuel + 1, c :: cs =>
    if !pat.isEmpty && listStartsWith (c :: cs) pat then
      rep ++ pyReplaceFuel pat rep fuel (List.drop pat.length (c :: cs))
    else
      c :: pyReplaceFuel pat rep fuel cs

/-- Python str.replace(old, new): every non-overlapping occurrence of old is
replaced by new, scanning left to right. -/
def pyReplace (s pat rep : String) : String :=
  String.mk (pyReplaceFuel pat.toList rep.toList s.toList.length s.toList)

/-- File path modelled by its list of components, as pathlib exposes it
through Path.parts. -/
abbrev FPath := List String

namespace ExportToNeo4j

/-- ASCII uppercase letter test, the character class of the regular expression
in camel_to_upper_snake (scripts/export_to_neo4j.py line 639). -/
def isAsciiUpperChar (c : Char) : Bool :=
  'A' ≤ c && c ≤ 'Z'

/-- ASCII lowercase letter test. -/
def isAsciiLowerChar (c : Char) : Bool :=
  'a' ≤ c && c ≤ 'z'

/-- Python str.upper on a single character, restricted to the ASCII range the
scripts use: lowercase ASCII letters are shifted to uppercase, every other
character is unchanged. -/
def pyUpperChar (c : Char) : Char :=
  if isAsciiLowerChar c then Char.ofNat (c.toNat - 32) else c

/-- Action of the substitution re.sub with pattern (?<!^)(?=[A-Z]) on the tail
of the string: every position here is a non-start position, so an underscore
is inserted before each uppercase letter. -/
def camelSubTail : List Char → List Char
  | [] => []
  | c :: rest => (if isAsciiUpperChar c then ['_', c] else [c]) ++ camelSubTail rest

/-- Substitution step of camel_to_upper_snake (export_to_neo4j.py line 639):
the first character is at the start of the string, where the lookbehind
(?<!^) blocks a match, so it is kept as is. -/
def camelSub : List Char → List Char
  | [] => []
  | c :: rest => c :: camelSubTail rest

/-- Embedding of camel_to_upper_snake (export_to_neo4j.py lines 629-641):
insert an underscore before each uppercase letter except at the start, then
uppercase the result. -/
def camel_to_upper_snake (name : List Char) : List Char :=
  (camelSub name).map pyUpperChar

/-- String-valued wrapper of camel_to_upper_snake, used where the scripts pass
whole strings around. -/
def camelToUpperSnakeStr (s : String) : String :=
  String.mk (camel_to_upper_snake s.toList)

theorem pyUpperChar_underscore : pyUpperChar '_' = '_' := by decide

theorem camelSubTail_spec (g : Nat × Char → List Char)
    (hg : ∀ n c, g (n + 1, c) =
      if isAsciiUpperChar c then ['_', pyUpperChar c] else [pyUpperChar c]) :
    ∀ (rest : List Char) (n : Nat),
      ((rest.enumFrom (n + 1)).map g).flatten = (camelSubTail rest).map pyUpperChar := by
  intro rest
  induction rest with
  | nil => intro n; rfl
  | cons c rest ih =>
    intro n
    simp only [List.enumFrom, List.map_cons, List.flatten_cons, camelSubTail,
      List.map_append, hg]
    rw [ih (n + 1)]
    by_cases h : isAsciiUpperChar c
    · simp [h, pyUpperChar_underscore]
    · simp [h]

/-- C4: for every input string camel_to_upper_snake returns the uppercase form
of the string with an underscore inserted immediately before each uppercase
letter of the input that is not at position 0, and on the three documented
examples it yields HAS_YEAR_GROUP, IS_PART_OF and
INCLUDES_UNIT_VARIANT_CHOICE. -/
theorem c4_camel_to_upper_snake_spec :
    (∀ s : List Char,
      camel_to_upper_snake s =
        (s.enum.map (fun p =>
          if 0 < p.1 ∧ isAsciiUpperChar p.2 = true
          then ['_', pyUpperChar p.2] else [pyUpperChar p.2])).flatten)
    ∧ camel_to_upper_snake "hasYearGroup".toList = "HAS_YEAR_GROUP".toList
    ∧ camel_to_upper_snake "isPartOf".toList = "IS_PART_OF".toList
    ∧ camel_to_upper_snake "includesUnitVariantChoice".toList =
        "INCLUDES_UNIT_VARIANT_CHOICE".toList := by
  refine ⟨?_, by decide, by decide, by decide⟩
  intro s
  cases s with
  | nil => rfl
  | cons c rest =>
    show pyUpperChar c :: (camelSubTail rest).map pyUpperChar = _
    rw [List.enum]
    simp only [List.enumFrom, List.map_cons, List.flatten_cons]
    have h0 : (if 0 < 0 ∧ isAsciiUpperChar c = true
        then ['_', pyUpperChar c] else [pyUpperChar c]) = [pyUpperChar c] := by
      simp
    rw [h0]
    have := camelSubTail_spec
      (fun p => if 0 < p.1 ∧ isAsciiUpperChar p.2 = true
        then ['_', pyUpperChar p.2] else [pyUpperChar p.2])
      (by intro n c; simp) rest 0
    rw [this]
    rfl

/-- Python str.upper on a whole string, ASCII model. -/
def pyUpperStr (s : String) : String :=
  String.mk (s.toList.map pyUpperChar)

/-- ASCII cased character (a letter). -/
def isCasedAscii (c : Char) : Bool :=
  isAsciiLowerChar c || isAsciiUpperChar c

/-- Python str.isupper restricted to ASCII: at least one cased character and
no lowercase cased character. -/
def pyIsUpper (s : String) : Bool :=
  s.toList.any isCasedAscii && s.toList.all (fun c => !isAsciiLowerChar c)

/-- Embedding of LabelMappingConfig (export_to_neo4j.py lines 35-40). -/
structure LabelMappingConfig where
  source_label : String
  target_label : String
  uri_pattern : String
  deriving DecidableEq, Repr

/-- Embedding of InclusionFlatteningConfig (export_to_neo4j.py lines 69-77);
the dictionary-valued fields become association lists. -/
structure InclusionFlatteningConfig where
  description : String
  inclusion_node_label : String
  source_node_label : String
  target_node_label : String
  relationship_type : String
  relationship_property_mappings : List (String × String)
  copy_target_properties : List (String × String)
  deriving DecidableEq, Repr

/-- Transformation-relevant part of Neo4jExportConfig (export_to_neo4j.py
lines 80-91); Python dicts become association lists whose key lists are
duplicate-free. -/
structure Neo4jExportConfig where
  label_mapping : LabelMappingConfig
  uri_slug_extraction : List (String × String)
  property_mappings : List (String × List (String × String))
  relationship_type_mappings : List (String × String)
  reverse_relationships : List (String × String)
  inclusion_flattening : List InclusionFlatteningConfig
  deriving DecidableEq, Repr

/-- One templated Cypher query issued by Neo4jTransformer, identified by the
transformation kind and the configuration values interpolated into it. -/
inductive TStep where
  | labelMapping (source target uriPattern : String)
  | slugExtraction (nodeLabel slugProperty : String)
  | propertyMapping (nodeLabel oldProp newProp : String)
  | relTypeMapping (oldType newType : String)
  | reverseRel (oldType newType : String)
  | inclusionFlattening (inclusionLabel sourceLabel targetLabel relType : String)
  | camelConversion (oldType newType : String)
  deriving DecidableEq, Repr

/-- Constructor discriminant of a transformation step. -/
def TStep.kind : TStep → Nat
  | .labelMapping .. => 0
  | .slugExtraction .. => 1
  | .propertyMapping .. => 2
  | .relTypeMapping .. => 3
  | .reverseRel .. => 4
  | .inclusionFlattening .. => 5
  | .camelConversion .. => 6

/-- Queries issued by _apply_label_mapping (lines 331-360): the guard on
self.config.label_mapping never fires because the field is a required
pydantic model and hence truthy, so exactly one relabel query runs. -/
def applyLabelMapping (cfg : Neo4jExportConfig) : List TStep :=
  [TStep.labelMapping cfg.label_mapping.source_label cfg.label_mapping.target_label
    cfg.label_mapping.uri_pattern]

/-- Queries issued by _apply_slug_extraction (lines 362-386): an empty dict is
falsy and returns early, otherwise one query per configured entry. -/
def applySlugExtraction (cfg : Neo4jExportConfig) : List TStep :=
  if cfg.uri_slug_extraction = [] then []
  else cfg.uri_slug_extraction.map (fun p => TStep.slugExtraction p.1 p.2)

/-- Queries issued by _apply_property_mappings (lines 388-413): one query per
(node label, old property, new property) entry of the nested dict. -/
def applyPropertyMappings (cfg : Neo4jExportConfig) : List TStep :=
  if cfg.property_mappings = [] then []
  else (cfg.property_mappings.map (fun q =>
    q.2.map (fun m => TStep.propertyMapping q.1 m.1 m.2))).flatten

/-- Queries issued by _apply_relationship_type_mappings (lines 415-443). -/
def applyRelationshipTypeMappings (cfg : Neo4jExportConfig) : List TStep :=
  if cfg.relationship_type_mappings = [] then []
  else cfg.relationship_type_mappings.map (fun p => TStep.relTypeMapping p.1 p.2)

/-- Queries issued by _apply_reverse_relationships (lines 445-473). -/
def applyReverseRelationships (cfg : Neo4jExportConfig) : List TStep :=
  if cfg.reverse_relationships = [] then []
  else cfg.reverse_relationships.map (fun p => TStep.reverseRel p.1 p.2)

/-- Queries issued by _apply_inclusion_flattening (lines 475-532): one
flattening query per configured inclusion entry. -/
def applyInclusionFlattening (cfg : Neo4jExportConfig) : List TStep :=
  if cfg.inclusion_flattening = [] then []
  else cfg.inclusion_flattening.map (fun fc =>
    TStep.inclusionFlattening fc.inclusion_node_label fc.source_node_label
      fc.target_node_label fc.relationship_type)

/-- Skip condition of _apply_camelcase_conversion (lines 553-559), including
the Python operator precedence (A and B) or C of line 555, plus the skip of
relationship types explicitly set by the type-mapping section. -/
def skipCamel (cfg : Neo4jExportConfig) (relType : String) : Bool :=
  ((relType == pyUpperStr relType && relType.toList.contains '_') || pyIsUpper relType)
  || (cfg.relationship_type_mappings.map Prod.snd).contains relType

/-- Queries issued by _apply_camelcase_conversion (lines 534-583) given the
distinct relationship types found in the database: one rename query per type
that is not skipped. -/
def applyCamelConversion (cfg : Neo4jExportConfig) (dbRelTypes : List String) : List TStep :=
  (dbRelTypes.filter (fun rt => !skipCamel cfg rt)).map
    (fun rt => TStep.camelConversion rt (camelToUpperSnakeStr rt))

/-- Embedding of Neo4jTransformer.apply_all_transformations (lines 316-329):
the seven transformation sections run once each, in source order, with the
camel-case section parameterised by the relationship types the database
reports at that point. -/
def apply_all_transformations (cfg : Neo4jExportConfig) (dbRelTypes : List String) :
    List TStep :=
  applyLabelMapping cfg ++ applySlugExtraction cfg ++ applyPropertyMappings cfg
    ++ applyRelationshipTypeMappings cfg ++ applyReverseRelationships cfg
    ++ applyInclusionFlattening cfg ++ applyCamelConversion cfg dbRelTypes

/-- Flattened (label, old, new) entries of the nested property-mapping dict. -/
def propertyPairs (cfg : Neo4jExportConfig) : List (String × String × String) :=
  (cfg.property_mappings.map (fun q => q.2.map (fun m => (q.1, m.1, m.2)))).flatten

/-- Key quadruple of an inclusion-flattening entry. -/
def inclKey (fc : InclusionFlatteningConfig) : String × String × String × String :=
  (fc.inclusion_node_label, fc.source_node_label, fc.target_node_label,
    fc.relationship_type)

theorem applySlugExtraction_eq (cfg : Neo4jExportConfig) :
    applySlugExtraction cfg =
      cfg.uri_slug_extraction.map (fun p => TStep.slugExtraction p.1 p.2) := by
  unfold applySlugExtraction
  split <;> simp_all

theorem applyRelationshipTypeMappings_eq (cfg : Neo4jExportConfig) :
    applyRelationshipTypeMappings cfg =
      cfg.relationship_type_mappings.map (fun p => TStep.relTypeMapping p.1 p.2) := by
  unfold applyRelationshipTypeMappings
  split <;> simp_all

theorem applyReverseRelationships_eq (cfg : Neo4jExportConfig) :
    applyReverseRelationships cfg =
      cfg.reverse_relationships.map (fun p => TStep.reverseRel p.1 p.2) := by
  unfold applyReverseRelationships
  split <;> simp_all

theorem applyPropertyMappings_eq (cfg : Neo4jExportConfig) :
    applyPropertyMappings cfg =
      (propertyPairs cfg).map (fun t => TStep.propertyMapping t.1 t.2.1 t.2.2) := by
  unfold applyPropertyMappings propertyPairs
  split
  · simp_all
  · rw [List.map_flatten, List.map_map]
    refine congrArg List.flatten (List.map_congr_left ?_)
    intro q hq
    simp [Function.comp, List.map_map]

theorem applyInclusionFlattening_eq (cfg : Neo4jExportConfig) :
    applyInclusionFlattening cfg =
      (cfg.inclusion_flattening.map inclKey).map
        (fun k => TStep.inclusionFlattening k.1 k.2.1 k.2.2.1 k.2.2.2) := by
  unfold applyInclusionFlattening
  split
  · simp_all
  · rw [List.map_map]
    rfl

theorem kind_of_mem_applyLabelMapping {cfg : Neo4jExportConfig} {s : TStep}
    (h : s ∈ applyLabelMapping cfg) : s.kind = 0 := by
  simp only [applyLabelMapping, List.mem_singleton] at h
  subst h; rfl

theorem kind_of_mem_applySlugExtraction {cfg : Neo4jExportConfig} {s : TStep}
    (h : s ∈ applySlugExtraction cfg) : s.kind = 1 := by
  rw [applySlugExtraction_eq] at h
  obtain ⟨p, -, rfl⟩ := List.mem_map.mp h
  rfl

theorem kind_of_mem_applyPropertyMappings {cfg : Neo4jExportConfig} {s : TStep}
    (h : s ∈ applyPropertyMappings cfg) : s.kind = 2 := by
  rw [applyPropertyMappings_eq] at h
  obtain ⟨p, -, rfl⟩ := List.mem_map.mp h
  rfl

theorem kind_of_mem_applyRelationshipTypeMappings {cfg : Neo4jExportConfig} {s : TStep}
    (h : s ∈ applyRelationshipTypeMappings cfg) : s.kind = 3 := by
  rw [applyRelationshipTypeMappings_eq] at h
  obtain ⟨p, -, rfl⟩ := List.mem_map.mp h
  rfl

theorem kind_of_mem_applyReverseRelationships {cfg : Neo4jExportConfig} {s : TStep}
    (h : s ∈ applyReverseRelationships cfg) : s.kind = 4 := by
  rw [applyReverseRelationships_eq] at h
  obtain ⟨p, -, rfl⟩ := List.mem_map.mp h
  rfl

theorem kind_of_mem_applyInclusionFlattening {cfg : Neo4jExportConfig} {s : TStep}
    (h : s ∈ applyInclusionFlattening cfg) : s.kind = 5 := by
  rw [applyInclusionFlattening_eq] at h
  obtain ⟨p, -, rfl⟩ := List.mem_map.mp h
  rfl

theorem kind_of_mem_applyCamelConversion {cfg : Neo4jExportConfig} {db : List String}
    {s : TStep} (h : s ∈ applyCamelConversion cfg db) : s.kind = 6 := by
  obtain ⟨p, -, rfl⟩ := List.mem_map.mp h
  rfl

theorem count_zero_of_kind {s : TStep} {l : List TStep} {k : Nat}
    (hl : ∀ t ∈ l, TStep.kind t = k) (hs : TStep.kind s ≠ k) : l.count s = 0 :=
  List.count_eq_zero.mpr (fun h => hs (hl s h))

theorem count_apply_all (cfg : Neo4jExportConfig) (db : List String) (s : TStep) :
    (apply_all_transformations cfg db).count s =
      (applyLabelMapping cfg).count s + (applySlugExtraction cfg).count s
      + (applyPropertyMappings cfg).count s
      + (applyRelationshipTypeMappings cfg).count s
      + (applyReverseRelationships cfg).count s
      + (applyInclusionFlattening cfg).count s
      + (applyCamelConversion cfg db).count s := by
  simp only [apply_all_transformations, List.count_append]

theorem count_apply_all_label (cfg : Neo4jExportConfig) (db : List String)
    (a b c : String) :
    (apply_all_transformations cfg db).count (TStep.labelMapping a b c)
      = (applyLabelMapping cfg).count (TStep.labelMapping a b c) := by
  have h2 : (applySlugExtraction cfg).count (TStep.labelMapping a b c) = 0 :=
    count_zero_of_kind (fun t ht => kind_of_mem_applySlugExtraction ht) (by simp [TStep.kind])
  have h3 : (applyPropertyMappings cfg).count (TStep.labelMapping a b c) = 0 :=
    count_zero_of_kind (fun t ht => kind_of_mem_applyPropertyMappings ht) (by simp [TStep.kind])
  have h4 : (applyRelationshipTypeMappings cfg).count (TStep.labelMapping a b c) = 0 :=
    count_zero_of_kind (fun t ht => kind_of_mem_applyRelationshipTypeMappings ht)
      (by simp [TStep.kind])
  have h5 : (applyReverseRelationships cfg).count (TStep.labelMapping a b c) = 0 :=
    count_zero_of_kind (fun t ht => kind_of_mem_applyReverseRelationships ht) (by simp [TStep.kind])
  have h6 : (applyInclusionFlattening cfg).count (TStep.labelMapping a b c) = 0 :=
    count_zero_of_kind (fun t ht => kind_of_mem_applyInclusionFlattening ht) (by simp [TStep.kind])
  have h7 : (applyCamelConversion cfg db).count (TStep.labelMapping a b c) = 0 :=
    count_zero_of_kind (fun t ht => kind_of_mem_applyCamelConversion ht) (by simp [TStep.kind])
  rw [count_apply_all, h2, h3, h4, h5, h6, h7]
  omega

theorem count_apply_all_slug (cfg : Neo4jExportConfig) (db : List String)
    (a b : String) :
    (apply_all_transformations cfg db).count (TStep.slugExtraction a b)
      = (applySlugExtraction cfg).count (TStep.slugExtraction a b) := by
  have h1 : (applyLabelMapping cfg).count (TStep.slugExtraction a b) = 0 :=
    count_zero_of_kind (fun t ht => kind_of_mem_applyLabelMapping ht) (by simp [TStep.kind])
  have h3 : (applyPropertyMappings cfg).count (TStep.slugExtraction a b) = 0 :=
    count_zero_of_kind (fun t ht => kind_of_mem_applyPropertyMappings ht) (by simp [TStep.kind])
  have h4 : (applyRelationshipTypeMappings cfg).count (TStep.slugExtraction a b) = 0 :=
    count_zero_of_kind (fun t ht => kind_of_mem_applyRelationshipTypeMappings ht)
      (by simp [TStep.kind])
  have h5 : (applyReverseRelationships cfg).count (TStep.slugExtraction a b) = 0 :=
    count_zero_of_kind (fun t ht => kind_of_mem_applyReverseRelationships ht) (by simp [TStep.kind])
  have h6 : (applyInclusionFlattening cfg).count (TStep.slugExtraction a b) = 0 :=
    count_zero_of_kind (fun t ht => kind_of_mem_applyInclusionFlattening ht) (by simp [TStep.kind])
  have h7 : (applyCamelConversion cfg db).count (TStep.slugExtraction a b) = 0 :=
    count_zero_of_kind (fun t ht => kind_of_mem_applyCamelConversion ht) (by simp [TStep.kind])
  rw [count_apply_all, h1, h3, h4, h5, h6, h7]
  omega

theorem count_apply_all_prop (cfg : Neo4jExportConfig) (db : List String)
    (a b c : String) :
    (apply_all_transformations cfg db).count (TStep.propertyMapping a b c)
      = (applyPropertyMappings cfg).count (TStep.propertyMapping a b c) := by
  have h1 : (applyLabelMapping cfg).count (TStep.propertyMapping a b c) = 0 :=
    count_zero_of_kind (fun t ht => kind_of_mem_applyLabelMapping ht) (by simp [TStep.kind])
  have h2 : (applySlugExtraction cfg).count (TStep.propertyMapping a b c) = 0 :=
    count_zero_of_kind (fun t ht => kind_of_mem_applySlugExtraction ht) (by simp [TStep.kind])
  have h4 : (applyRelationshipTypeMappings cfg).count (TStep.propertyMapping a b c) = 0 :=
    count_zero_of_kind (fun t ht => kind_of_mem_applyRelationshipTypeMappings ht)
      (by simp [TStep.kind])
  have h5 : (applyReverseRelationships cfg).count (TStep.propertyMapping a b c) = 0 :=
    count_zero_of_kind (fun t ht => kind_of_mem_applyReverseRelationships ht) (by simp [TStep.kind])
  have h6 : (applyInclusionFlattening cfg).count (TStep.propertyMapping a b c) = 0 :=
    count_zero_of_kind (fun t ht => kind_of_mem_applyInclusionFlattening ht) (by simp [TStep.kind])
  have h7 : (applyCamelConversion cfg db).count (TStep.propertyMapping a b c) = 0 :=
    count_zero_of_kind (fun t ht => kind_of_mem_applyCamelConversion ht) (by simp [TStep.kind])
  rw [count_apply_all, h1, h2, h4, h5, h6, h7]
  omega

theorem count_apply_all_rel (cfg : Neo4jExportConfig) (db : List String)
    (a b : String) :
    (apply_all_transformations cfg db).count (TStep.relTypeMapping a b)
      = (applyRelationshipTypeMappings cfg).count (TStep.relTypeMapping a b) := by
  have h1 : (applyLabelMapping cfg).count (TStep.relTypeMapping a b) = 0 :=
    count_zero_of_kind (fun t ht => kind_of_mem_applyLabelMapping ht) (by simp [TStep.kind])
  have h2 : (applySlugExtraction cfg).count (TStep.relTypeMapping a b) = 0 :=
    count_zero_of_kind (fun t ht => kind_of_mem_applySlugExtraction ht) (by simp [TStep.kind])
  have h3 : (applyPropertyMappings cfg).count (TStep.relTypeMapping a b) = 0 :=
    count_zero_of_kind (fun t ht => kind_of_mem_applyPropertyMappings ht) (by simp [TStep.kind])
  have h5 : (applyReverseRelationships cfg).count (TStep.relTypeMapping a b) = 0 :=
    count_zero_of_kind (fun t ht => kind_of_mem_applyReverseRelationships ht) (by simp [TStep.kind])
  have h6 : (applyInclusionFlattening cfg).count (TStep.relTypeMapping a b) = 0 :=
    count_zero_of_kind (fun t ht => kind_of_mem_applyInclusionFlattening ht) (by simp [TStep.kind])
  have h7 : (applyCamelConversion cfg db).count (TStep.relTypeMapping a b) = 0 :=
    count_zero_of_kind (fun t ht => kind_of_mem_applyCamelConversion ht) (by simp [TStep.kind])
  rw [count_apply_all, h1, h2, h3, h5, h6, h7]
  omega

theorem count_apply_all_rev (cfg : Neo4jExportConfig) (db : List String)
    (a b : String) :
    (apply_all_transformations cfg db).count (TStep.reverseRel a b)
      = (applyReverseRelationships cfg).count (TStep.reverseRel a b) := by
  have h1 : (applyLabelMapping cfg).count (TStep.reverseRel a b) = 0 :=
    count_zero_of_kind (fun t ht => kind_of_mem_applyLabelMapping ht) (by simp [TStep.kind])
  have h2 : (applySlugExtraction cfg).count (TStep.reverseRel a b) = 0 :=
    count_zero_of_kind (fun t ht => kind_of_mem_applySlugExtraction ht) (by simp [TStep.kind])
  have h3 : (applyPropertyMappings cfg).count (TStep.reverseRel a b) = 0 :=
    count_zero_of_kind (fun t ht => kind_of_mem_applyPropertyMappings ht) (by simp [TStep.kind])
  have h4 : (applyRelationshipTypeMappings cfg).count (TStep.reverseRel a b) = 0 :=
    count_zero_of_kind (fun t ht => kind_of_mem_applyRelationshipTypeMappings ht)
      (by simp [TStep.kind])
  have h6 : (applyInclusionFlattening cfg).count (TStep.reverseRel a b) = 0 :=
    count_zero_of_kind (fun t ht => kind_of_mem_applyInclusionFlattening ht) (by simp [TStep.kind])
  have h7 : (applyCamelConversion cfg db).count (TStep.reverseRel a b) = 0 :=
    count_zero_of_kind (fun t ht => kind_of_mem_applyCamelConversion ht) (by simp [TStep.kind])
  rw [count_apply_all, h1, h2, h3, h4, h6, h7]
  omega

theorem count_apply_all_incl (cfg : Neo4jExportConfig) (db : List String)
    (a b c d : String) :
    (apply_all_transformations cfg db).count (TStep.inclusionFlattening a b c d)
      = (applyInclusionFlattening cfg).count (TStep.inclusionFlattening a b c d) := by
  have h1 : (applyLabelMapping cfg).count (TStep.inclusionFlattening a b c d) = 0 :=
    count_zero_of_kind (fun t ht => kind_of_mem_applyLabelMapping ht) (by simp [TStep.kind])
  have h2 : (applySlugExtraction cfg).count (TStep.inclusionFlattening a b c d) = 0 :=
    count_zero_of_kind (fun t ht => kind_of_mem_applySlugExtraction ht) (by simp [TStep.kind])
  have h3 : (applyPropertyMappings cfg).count (TStep.inclusionFlattening a b c d) = 0 :=
    count_zero_of_kind (fun t ht => kind_of_mem_applyPropertyMappings ht) (by simp [TStep.kind])
  have h4 : (applyRelationshipTypeMappings cfg).count
      (TStep.inclusionFlattening a b c d) = 0 :=
    count_zero_of_kind (fun t ht => kind_of_mem_applyRelationshipTypeMappings ht)
      (by simp [TStep.kind])
  have h5 : (applyReverseRelationships cfg).count (TStep.inclusionFlattening a b c d) = 0 :=
    count_zero_of_kind (fun t ht => kind_of_mem_applyReverseRelationships ht) (by simp [TStep.kind])
  have h7 : (applyCamelConversion cfg db).count (TStep.inclusionFlattening a b c d) = 0 :=
    count_zero_of_kind (fun t ht => kind_of_mem_applyCamelConversion ht) (by simp [TStep.kind])
  rw [count_apply_all, h1, h2, h3, h4, h5, h7]
  omega

theorem slugStep_injective :
    Function.Injective (fun p : String × String => TStep.slugExtraction p.1 p.2) := by
  intro a b h
  obtain ⟨a1, a2⟩ := a
  obtain ⟨b1, b2⟩ := b
  simpa using h

theorem propStep_injective :
    Function.Injective
      (fun t : String × String × String => TStep.propertyMapping t.1 t.2.1 t.2.2) := by
  intro a b h
  obtain ⟨a1, a2, a3⟩ := a
  obtain ⟨b1, b2, b3⟩ := b
  simpa using h

theorem relStep_injective :
    Function.Injective (fun p : String × String => TStep.relTypeMapping p.1 p.2) := by
  intro a b h
  obtain ⟨a1, a2⟩ := a
  obtain ⟨b1, b2⟩ := b
  simpa using h

theorem revStep_injective :
    Function.Injective (fun p : String × String => TStep.reverseRel p.1 p.2) := by
  intro a b h
  obtain ⟨a1, a2⟩ := a
  obtain ⟨b1, b2⟩ := b
  simpa using h

theorem inclStep_injective :
    Function.Injective (fun k : String × String × String × String =>
      TStep.inclusionFlattening k.1 k.2.1 k.2.2.1 k.2.2.2) := by
  intro a b h
  obtain ⟨a1, a2, a3, a4⟩ := a
  obtain ⟨b1, b2, b3, b4⟩ := b
  simpa using h

/-- C1: every run of apply_all_transformations executes the post-import
transformations as a fixed sequence in a hardcoded order — label mapping,
then URI-slug extraction, then property mappings, then relationship-type
mappings, then relationship reversal, then inclusion flattening, then
camelCase-to-UPPER_SNAKE conversion — and each configured transformation
appears exactly once in the query trace (never retried). The duplicate-free
hypotheses reflect the uniqueness of Python dict keys. -/
theorem c1_apply_all_fixed_order (cfg : Neo4jExportConfig) (db : List String)
    (hslug : cfg.uri_slug_extraction.Nodup)
    (hpm : (propertyPairs cfg).Nodup)
    (hrel : cfg.relationship_type_mappings.Nodup)
    (hrev : cfg.reverse_relationships.Nodup)
    (hinc : (cfg.inclusion_flattening.map inclKey).Nodup) :
    apply_all_transformations cfg db =
      applyLabelMapping cfg ++ applySlugExtraction cfg ++ applyPropertyMappings cfg
        ++ applyRelationshipTypeMappings cfg ++ applyReverseRelationships cfg
        ++ applyInclusionFlattening cfg ++ applyCamelConversion cfg db
    ∧ (apply_all_transformations cfg db).count
        (TStep.labelMapping cfg.label_mapping.source_label
          cfg.label_mapping.target_label cfg.label_mapping.uri_pattern) = 1
    ∧ (∀ p ∈ cfg.uri_slug_extraction,
        (apply_all_transformations cfg db).count (TStep.slugExtraction p.1 p.2) = 1)
    ∧ (∀ t ∈ propertyPairs cfg,
        (apply_all_transformations cfg db).count
          (TStep.propertyMapping t.1 t.2.1 t.2.2) = 1)
    ∧ (∀ p ∈ cfg.relationship_type_mappings,
        (apply_all_transformations cfg db).count (TStep.relTypeMapping p.1 p.2) = 1)
    ∧ (∀ p ∈ cfg.reverse_relationships,
        (apply_all_transformations cfg db).count (TStep.reverseRel p.1 p.2) = 1)
    ∧ (∀ fc ∈ cfg.inclusion_flattening,
        (apply_all_transformations cfg db).count
          (TStep.inclusionFlattening fc.inclusion_node_label fc.source_node_label
            fc.target_node_label fc.relationship_type) = 1) := by
  refine ⟨rfl, ?_, ?_, ?_, ?_, ?_, ?_⟩
  · rw [count_apply_all_label]
    simp [applyLabelMapping]
  · intro p hp
    rw [count_apply_all_slug, applySlugExtraction_eq]
    exact (List.count_map_of_injective cfg.uri_slug_extraction _ slugStep_injective
      p).trans (List.count_eq_one_of_mem hslug hp)
  · intro t ht
    rw [count_apply_all_prop, applyPropertyMappings_eq]
    exact (List.count_map_of_injective (propertyPairs cfg) _ propStep_injective
      t).trans (List.count_eq_one_of_mem hpm ht)
  · intro p hp
    rw [count_apply_all_rel, applyRelationshipTypeMappings_eq]
    exact (List.count_map_of_injective cfg.relationship_type_mappings _
      relStep_injective p).trans (List.count_eq_one_of_mem hrel hp)
  · intro p hp
    rw [count_apply_all_rev, applyReverseRelationships_eq]
    exact (List.count_map_of_injective cfg.reverse_relationships _
      revStep_injective p).trans (List.count_eq_one_of_mem hrev hp)
  · intro fc hfc
    rw [count_apply_all_incl, applyInclusionFlattening_eq]
    exact (List.count_map_of_injective (cfg.inclusion_flattening.map inclKey) _
      inclStep_injective (inclKey fc)).trans
      (List.count_eq_one_of_mem hinc (List.mem_map_of_mem inclKey hfc))

/-- Concrete export configuration with one entry in every transformation
section, used to instantiate the C1 theorem. -/
def sampleConfig : Neo4jExportConfig where
  label_mapping :=
    { source_label := "Resource", target_label := "Oak",
      uri_pattern := "https://w3id.org/oak/" }
  uri_slug_extraction := [("Unit", "slug")]
  property_mappings := [("Unit", [("unitTitle", "title")])]
  relationship_type_mappings := [("hasUnit", "HAS_UNIT")]
  reverse_relationships := [("isPartOf", "HAS_PART")]
  inclusion_flattening :=
    [{ description := "flatten unit inclusions",
       inclusion_node_label := "UnitInclusion", source_node_label := "Thread",
       target_node_label := "Unit", relationship_type := "INCLUDES_UNIT",
       relationship_property_mappings := [], copy_target_properties := [] }]

theorem c1_apply_all_fixed_order_witness :
    sampleConfig.uri_slug_extraction.Nodup
    ∧ (propertyPairs sampleConfig).Nodup
    ∧ sampleConfig.relationship_type_mappings.Nodup
    ∧ sampleConfig.reverse_relationships.Nodup
    ∧ (sampleConfig.inclusion_flattening.map inclKey).Nodup
    ∧ (apply_all_transformations sampleConfig ["hasLesson"]).count
        (TStep.labelMapping "Resource" "Oak" "https://w3id.org/oak/") = 1 :=
  ⟨by decide, by decide, by decide, by decide, by decide,
    (c1_apply_all_fixed_order sampleConfig ["hasLesson"] (by decide) (by decide)
      (by decide) (by decide) (by decide)).2.1⟩

def rdfTypePred : String := "http://www.w3.org/1999/02/22-rdf-syntax-ns#type"

def owlOntologyURI : String := "http://www.w3.org/2002/07/owl#Ontology"

/-- Resolution of a configured excluded-type name to a type URI
(export_to_neo4j.py lines 222-228): the known prefix owl:Ontology maps to the
OWL namespace term, any other string is used as the URI itself. -/
def resolveTypeURI (subjectType : String) : String :=
  if subjectType = "owl:Ontology" then owlOntologyURI else subjectType

/-- One pass of the filtering loop of load_and_filter (lines 222-238) for one
excluded type: the subjects declared of that type in the current graph are
collected, every triple with such a subject is removed, and each removed
triple increments the filtered counter. -/
def filterPass (acc : RDFGraph × Nat) (subjectType : String) : RDFGraph × Nat :=
  let ty := Node.uri (resolveTypeURI subjectType)
  let toRemove := acc.1.filter (fun t => Triple.mk t.subj rdfTypePred ty ∈ acc.1)
  (acc.1 \ toRemove, acc.2 + toRemove.card)

/-- Embedding of RDFLoader.load_and_filter (lines 204-240) applied to the
graph parsed from the TTL file: the original triple count is taken, one
filtering pass runs per excluded type, and the triple
(filtered graph, original count, filtered count) is returned. -/
def load_and_filter (g0 : RDFGraph) (excludeTypes : List String) :
    RDFGraph × Nat × Nat :=
  let original := g0.card
  let r := excludeTypes.foldl filterPass (g0, 0)
  (r.1, original, r.2)

/-- Default value of FilterConfig.exclude_subjects_by_type (line 53). -/
def defaultExcludeTypes : List String := ["owl:Ontology"]

/-- Subject-atomicity invariant of the filtering loop: the working graph is a
subset of the parsed graph, and for each subject either all of its original
triples are still present or none is. -/
def SubjAtomic (g0 g : RDFGraph) : Prop :=
  g ⊆ g0 ∧ ∀ t ∈ g, ∀ u ∈ g0, u.subj = t.subj → u ∈ g

theorem mem_filterPass_fst {acc : RDFGraph × Nat} {ty : String} {t : Triple} :
    t ∈ (filterPass acc ty).1 ↔
      t ∈ acc.1
      ∧ Triple.mk t.subj rdfTypePred (Node.uri (resolveTypeURI ty)) ∉ acc.1 := by
  unfold filterPass
  simp only [Finset.mem_sdiff, Finset.mem_filter]
  tauto

theorem filterPass_fst_subset (acc : RDFGraph × Nat) (ty : String) :
    (filterPass acc ty).1 ⊆ acc.1 :=
  fun _t ht => (mem_filterPass_fst.mp ht).1

theorem filterPass_card (acc : RDFGraph × Nat) (ty : String) :
    (filterPass acc ty).1.card + (filterPass acc ty).2 = acc.1.card + acc.2 := by
  unfold filterPass
  simp only
  rw [Finset.card_sdiff (Finset.filter_subset _ _)]
  have h := Finset.card_filter_le acc.1
    (fun t => Triple.mk t.subj rdfTypePred (Node.uri (resolveTypeURI ty)) ∈ acc.1)
  omega

theorem filterPass_subjAtomic {g0 : RDFGraph} {acc : RDFGraph × Nat} {ty : String}
    (h : SubjAtomic g0 acc.1) : SubjAtomic g0 (filterPass acc ty).1 := by
  obtain ⟨hsub, hat⟩ := h
  refine ⟨fun t ht => hsub (mem_filterPass_fst.mp ht).1, ?_⟩
  intro t ht u hu hsubj
  obtain ⟨htg, htn⟩ := mem_filterPass_fst.mp ht
  refine mem_filterPass_fst.mpr ⟨hat t htg u hu hsubj, ?_⟩
  rw [hsubj]
  exact htn

theorem filterPass_clears {g0 : RDFGraph} {acc : RDFGraph × Nat} {ty : String}
    (h : SubjAtomic g0 acc.1) {t : Triple} (ht : t ∈ (filterPass acc ty).1) :
    Triple.mk t.subj rdfTypePred (Node.uri (resolveTypeURI ty)) ∉ g0 := by
  obtain ⟨htg, htn⟩ := mem_filterPass_fst.mp ht
  intro hu
  exact htn (h.2 t htg _ hu rfl)

theorem foldl_filterPass_spec (g0 : RDFGraph) :
    ∀ (tys : List String) (g : RDFGraph) (c : Nat), SubjAtomic g0 g →
      (tys.foldl filterPass (g, c)).1 ⊆ g
      ∧ (tys.foldl filterPass (g, c)).1.card + (tys.foldl filterPass (g, c)).2
          = g.card + c
      ∧ SubjAtomic g0 (tys.foldl filterPass (g, c)).1
      ∧ ∀ ty ∈ tys, ∀ t ∈ (tys.foldl filterPass (g, c)).1,
          Triple.mk t.subj rdfTypePred (Node.uri (resolveTypeURI ty)) ∉ g0 := by
  intro tys
  induction tys with
  | nil =>
    intro g c h
    exact ⟨Finset.Subset.refl g, rfl, h, by simp⟩
  | cons ty rest ih =>
    intro g c h
    have h1 : SubjAtomic g0 (filterPass (g, c) ty).1 := filterPass_subjAtomic h
    obtain ⟨s1, s2, s3, s4⟩ := ih (filterPass (g, c) ty).1 (filterPass (g, c) ty).2 h1
    refine ⟨fun t ht => filterPass_fst_subset (g, c) ty (s1 ht),
      s2.trans (filterPass_card (g, c) ty), s3, ?_⟩
    intro ty' hmem t ht
    rcases List.mem_cons.mp hmem with rfl | hmem'
    · exact filterPass_clears h (s1 ht)
    · exact s4 ty' hmem' t ht

/-- C8: for every parsed graph, load_and_filter returns a triple
(graph, original_count, filtered_count) such that original_count equals the
size of the returned graph plus filtered_count, and the returned graph
contains no triple whose subject was declared via rdf:type to be of an
excluded type (owl:Ontology under the default filter) in the parsed file. -/
theorem c8_load_and_filter_spec (g0 : RDFGraph) (excludeTypes : List String) :
    (load_and_filter g0 excludeTypes).2.1
      = (load_and_filter g0 excludeTypes).1.card
        + (load_and_filter g0 excludeTypes).2.2
    ∧ ∀ ty ∈ excludeTypes, ∀ t ∈ (load_and_filter g0 excludeTypes).1,
        Triple.mk t.subj rdfTypePred (Node.uri (resolveTypeURI ty)) ∉ g0 := by
  have h0 : SubjAtomic g0 g0 := ⟨Finset.Subset.refl g0, fun t _ u hu _ => hu⟩
  obtain ⟨-, s2, -, s4⟩ := foldl_filterPass_spec g0 excludeTypes g0 0 h0
  constructor
  · simp only [load_and_filter]
    omega
  · exact s4

/-- Concrete parsed graph with an owl:Ontology header subject carrying two
triples and one other subject, used to instantiate the C8 theorem. -/
def sampleParsedGraph : RDFGraph :=
  { Triple.mk "https://w3id.org/oak/ontology" rdfTypePred (Node.uri owlOntologyURI),
    Triple.mk "https://w3id.org/oak/ontology"
      "http://www.w3.org/2000/01/rdf-schema#label" (Node.lit "Oak ontology" "@en"),
    Triple.mk "https://w3id.org/oak/unit-1"
      "http://www.w3.org/2000/01/rdf-schema#label" (Node.lit "Unit 1" "@en") }

theorem c8_load_and_filter_witness :
    "owl:Ontology" ∈ defaultExcludeTypes
    ∧ Triple.mk "https://w3id.org/oak/unit-1"
        "http://www.w3.org/2000/01/rdf-schema#label" (Node.lit "Unit 1" "@en")
        ∈ (load_and_filter sampleParsedGraph defaultExcludeTypes).1
    ∧ (load_and_filter sampleParsedGraph defaultExcludeTypes).2.1 = 3
    ∧ (load_and_filter sampleParsedGraph defaultExcludeTypes).1.card = 1
    ∧ (load_and_filter sampleParsedGraph defaultExcludeTypes).2.2 = 2
    ∧ (load_and_filter sampleParsedGraph defaultExcludeTypes).2.1
        = (load_and_filter sampleParsedGraph defaultExcludeTypes).1.card
          + (load_and_filter sampleParsedGraph defaultExcludeTypes).2.2
    ∧ Triple.mk "https://w3id.org/oak/unit-1" rdfTypePred (Node.uri owlOntologyURI)
        ∉ sampleParsedGraph :=
  ⟨by decide, by decide, by decide, by decide, by decide,
    (c8_load_and_filter_spec sampleParsedGraph defaultExcludeTypes).1,
    (c8_load_and_filter_spec sampleParsedGraph defaultExcludeTypes).2
      "owl:Ontology" (by decide)
      (Triple.mk "https://w3id.org/oak/unit-1"
        "http://www.w3.org/2000/01/rdf-schema#label" (Node.lit "Unit 1" "@en"))
      (by decide)⟩

/-- Discovery-relevant part of FileDiscoveryConfig (export_to_neo4j.py lines
43-48). -/
structure FileDiscoveryConfig where
  base_dir : FPath
  include_files : List FPath
  include_patterns : List String
  exclude_patterns : List String

/-- Directory-name extraction of _is_excluded (line 199): strip every leading
and trailing glob marker from the pattern. -/
def patternClean (pattern : String) : String :=
  pyReplace (pyReplace pattern "**/" "") "/**" ""

/-- Embedding of RDFLoader._is_excluded (lines 194-202): the file is excluded
when the cleaned name of some exclude pattern occurs among its path parts. -/
def isExcluded (excludePatterns : List String) (fileParts : FPath) : Bool :=
  excludePatterns.any (fun pattern => fileParts.contains (patternClean pattern))

/-- Embedding of RDFLoader.discover_files (lines 163-192). The filesystem is
modelled by the list fs of existing paths and the recursive glob of each
include pattern by the rglob argument (empty when the pattern has no
recursive marker or the search directory is missing). Explicitly listed
include_files are appended whenever the joined path exists, without
consulting _is_excluded (lines 173-176); pattern results are filtered
through _is_excluded (lines 179-190). -/
def discover_files (cfg : FileDiscoveryConfig) (fs : List FPath)
    (rglob : String → List FPath) : List FPath :=
  (cfg.include_files.filterMap (fun f =>
    let path := cfg.base_dir ++ f
    if path ∈ fs then some path else none))
  ++ (cfg.include_patterns.map (fun pattern =>
      (rglob pattern).filter (fun p => !isExcluded cfg.exclude_patterns p))).flatten

/-- Default value of FileDiscoveryConfig.exclude_patterns (line 48). -/
def defaultExcludePatterns : List String := ["**/versions/**"]

/-- Outcome of loading one discovered TTL file inside the per-file export
loop of main (lines 763-787): either load_and_filter returns a graph with
its triple and filtered counts, or it raises with a message. -/
inductive FileOutcome where
  | ok (triples : Nat) (filtered : Nat)
  | raised (msg : String)
  deriving DecidableEq, Repr

/-- Accumulated observable state of the per-file export loop. -/
structure LoopResult where
  totalTriples : Nat
  totalFiltered : Nat
  errorsLogged : List String
  filesAttempted : Nat
  deriving DecidableEq, Repr

/-- Body of one iteration of the per-file export loop (lines 763-787): a
successful load adds its counts to the running totals (lines 769-783), and a
raised exception is caught by the handler at lines 785-787, which logs the
error and continues with the next file. -/
def exportStep (acc : LoopResult) (o : FileOutcome) : LoopResult :=
  match o with
  | .ok t f =>
    { acc with
      totalTriples := acc.totalTriples + t,
      totalFiltered := acc.totalFiltered + f,
      filesAttempted := acc.filesAttempted + 1 }
  | .raised m =>
    { acc with
      errorsLogged := acc.errorsLogged ++ [m],
      filesAttempted := acc.filesAttempted + 1 }

/-- Embedding of the per-file export loop (lines 758-787): every discovered
file is attempted in order, starting from zero totals. -/
def exportLoop (outcomes : List FileOutcome) : LoopResult :=
  outcomes.foldl exportStep ⟨0, 0, [], 0⟩

/-- Error message an outcome contributes to the log. -/
def exportMsg : FileOutcome → Option String
  | .ok _ _ => none
  | .raised m => some m

/-- Exit behaviour of export_to_neo4j.main (lines 705-825): the body runs the
per-file loop, then commit, transformations and verification, whose success
is laterStagesOk; an exception in those later stages (or before the loop) is
caught by the top-level handler at lines 823-825, logged, and turned into
sys.exit(1), while a run that completes the body exits 0. The per-file loop
result never influences the exit code. -/
def export_main (outcomes : List FileOutcome) (laterStagesOk : Bool) :
    Nat × LoopResult :=
  (if laterStagesOk then 0 else 1, exportLoop outcomes)

end ExportToNeo4j

namespace MergeTtls

/-- Files parsed into the merged graph by merge_ttls.main (lines 63-81): each
discovered .ttl path is skipped when the component "versions" occurs among
its parts, otherwise it is parsed. -/
def parsedFiles (ttlFiles : List FPath) : List FPath :=
  ttlFiles.filter (fun p => !p.contains "versions")

/-- Exit behaviour of merge_ttls.main over the parse results of the
non-skipped files in order: a parse error is logged and re-raised by the
handler at lines 79-81, terminating the run with the interpreter's nonzero
exit code before any further file is parsed; otherwise every file is parsed
and the run exits 0. The second component counts the files parsed
successfully. -/
def merge_main : List (Except String Unit) → Nat × Nat
  | [] => (0, 0)
  | .ok _ :: rest =>
    let r := merge_main rest
    (r.1, r.2 + 1)
  | .error _ :: _ => (1, 0)

end MergeTtls

theorem exportLoop_foldl (outcomes : List ExportToNeo4j.FileOutcome) :
    ∀ acc : ExportToNeo4j.LoopResult,
      (outcomes.foldl ExportToNeo4j.exportStep acc).filesAttempted
          = acc.filesAttempted + outcomes.length
      ∧ (outcomes.foldl ExportToNeo4j.exportStep acc).errorsLogged
          = acc.errorsLogged ++ outcomes.filterMap ExportToNeo4j.exportMsg := by
  induction outcomes with
  | nil => intro acc; simp
  | cons o rest ih =>
    intro acc
    have h := ih (ExportToNeo4j.exportStep acc o)
    cases o with
    | ok t f =>
      refine ⟨?_, ?_⟩
      · rw [List.foldl_cons, h.1]
        simp [ExportToNeo4j.exportStep]
        omega
      · rw [List.foldl_cons, h.2]
        simp [ExportToNeo4j.exportStep, ExportToNeo4j.exportMsg]
    | raised m =>
      refine ⟨?_, ?_⟩
      · rw [List.foldl_cons, h.1]
        simp [ExportToNeo4j.exportStep]
        omega
      · rw [List.foldl_cons, h.2]
        simp [ExportToNeo4j.exportStep, ExportToNeo4j.exportMsg]

theorem merge_main_exit_iff (rs : List (Except String Unit)) :
    (MergeTtls.merge_main rs).1 = 0 ↔ ∀ r ∈ rs, r.isOk = true := by
  induction rs with
  | nil => simp [MergeTtls.merge_main]
  | cons r rest ih =>
    cases r with
    | ok v =>
      cases v
      simp [MergeTtls.merge_main, ih, Except.isOk, Except.toBool]
    | error m =>
      simp [MergeTtls.merge_main, Except.isOk, Except.toBool]

/-- C2 counterexample: in export_to_neo4j.main a parse exception raised by
rdflib while loading one TTL file is caught inside the per-file loop, logged,
and the run continues with the remaining files and exits 0 — refuting the
claim that every library exception causes a nonzero process exit and that no
component performs per-item failure recovery. -/
theorem c2_counterexample :
    (ExportToNeo4j.export_main
      [ExportToNeo4j.FileOutcome.raised "failed to parse lessons.ttl",
       ExportToNeo4j.FileOutcome.ok 5 1] true).1 = 0
    ∧ (ExportToNeo4j.export_main
        [ExportToNeo4j.FileOutcome.raised "failed to parse lessons.ttl",
         ExportToNeo4j.FileOutcome.ok 5 1] true).2.errorsLogged
        = ["failed to parse lessons.ttl"]
    ∧ (ExportToNeo4j.export_main
        [ExportToNeo4j.FileOutcome.raised "failed to parse lessons.ttl",
         ExportToNeo4j.FileOutcome.ok 5 1] true).2.filesAttempted = 2
    ∧ (ExportToNeo4j.export_main
        [ExportToNeo4j.FileOutcome.raised "failed to parse lessons.ttl",
         ExportToNeo4j.FileOutcome.ok 5 1] true).2.totalTriples = 5 := by
  refine ⟨rfl, rfl, rfl, rfl⟩

/-- C2 amended: exceptions reaching the top level of export_to_neo4j.main are
caught, logged and cause exit code 1, and in merge_ttls.main a parse error
terminates the run with a nonzero exit; but the Neo4j export performs
per-file failure recovery: every exception raised while loading an individual
TTL file is caught inside the loop, logged, and processing continues with the
remaining files, so a run whose only failures are per-file load errors exits
with code 0. -/
theorem c2_error_handling_amended (outcomes : List ExportToNeo4j.FileOutcome)
    (laterOk : Bool) (parseResults : List (Except String Unit)) :
    ((ExportToNeo4j.export_main outcomes laterOk).1 = 0 ↔ laterOk = true)
    ∧ (ExportToNeo4j.export_main outcomes laterOk).2.filesAttempted
        = outcomes.length
    ∧ (ExportToNeo4j.export_main outcomes laterOk).2.errorsLogged
        = outcomes.filterMap ExportToNeo4j.exportMsg
    ∧ ((MergeTtls.merge_main parseResults).1 = 0 ↔
        ∀ r ∈ parseResults, r.isOk = true) := by
  refine ⟨?_, ?_, ?_, merge_main_exit_iff parseResults⟩
  · cases laterOk <;> simp [ExportToNeo4j.export_main]
  · have h := exportLoop_foldl outcomes ⟨0, 0, [], 0⟩
    simpa [ExportToNeo4j.export_main, ExportToNeo4j.exportLoop] using h.1
  · have h := exportLoop_foldl outcomes ⟨0, 0, [], 0⟩
    simpa [ExportToNeo4j.export_main, ExportToNeo4j.exportLoop] using h.2

/-- Discovery configuration that lists a file under a versions directory
explicitly, with the default exclude pattern in force. -/
def versionsConfig : ExportToNeo4j.FileDiscoveryConfig where
  base_dir := ["data", "oak-curriculum"]
  include_files := [["versions", "old.ttl"]]
  include_patterns := []
  exclude_patterns := ["**/versions/**"]

/-- C9 counterexample: discover_files returns a path containing the component
"versions" when that file is listed in include_files and exists, because the
explicit-file branch never consults the exclude patterns — refuting the claim
that discover_files under the default exclude pattern never returns such a
file. -/
theorem c9_counterexample :
    ExportToNeo4j.discover_files versionsConfig
        [["data", "oak-curriculum", "versions", "old.ttl"]] (fun _ => [])
      = [["data", "oak-curriculum", "versions", "old.ttl"]]
    ∧ "versions" ∈ (["data", "oak-curriculum", "versions", "old.ttl"] : FPath)
    ∧ versionsConfig.exclude_patterns = ["**/versions/**"] := by
  refine ⟨by decide, by decide, rfl⟩

/-- C9 amended: merge_ttls.main never parses a file whose path contains
"versions" as a component, and every file discover_files returns through the
include_patterns branch is free of such a component whenever the default
exclude pattern is configured; but a file listed explicitly in include_files
is returned even when a "versions" component occurs in its path, since that
branch bypasses _is_excluded. -/
theorem c9_versions_excluded (ttlFiles : List FPath)
    (cfg : ExportToNeo4j.FileDiscoveryConfig) (fs : List FPath)
    (rglob : String → List FPath)
    (hdef : "**/versions/**" ∈ cfg.exclude_patterns) :
    (∀ p ∈ MergeTtls.parsedFiles ttlFiles, "versions" ∉ p)
    ∧ ∀ p ∈ ExportToNeo4j.discover_files cfg fs rglob, "versions" ∈ p →
        ∃ f ∈ cfg.include_files, p = cfg.base_dir ++ f := by
  constructor
  · intro p hp
    have h := (List.mem_filter.mp hp).2
    simpa using h
  · intro p hp hv
    rcases List.mem_append.mp hp with h | h
    · obtain ⟨f, hf, heq⟩ := List.mem_filterMap.mp h
      by_cases hex : cfg.base_dir ++ f ∈ fs
      · rw [if_pos hex] at heq
        exact ⟨f, hf, (Option.some.injEq _ _ ▸ heq).symm⟩
      · rw [if_neg hex] at heq
        exact absurd heq (by simp)
    · exfalso
      obtain ⟨l, hl, hpl⟩ := List.mem_flatten.mp h
      obtain ⟨pattern, hpat, rfl⟩ := List.mem_map.mp hl
      have hne := (List.mem_filter.mp hpl).2
      have hcl : ExportToNeo4j.patternClean "**/versions/**" = "versions" := by decide
      have : ExportToNeo4j.isExcluded cfg.exclude_patterns p = true := by
        apply List.any_eq_true.mpr
        refine ⟨"**/versions/**", hdef, ?_⟩
        rw [hcl]
        simpa using hv
      rw [this] at hne
      simp at hne

theorem c9_versions_excluded_witness :
    "**/versions/**" ∈ versionsConfig.exclude_patterns
    ∧ ∀ p ∈ MergeTtls.parsedFiles
        [["data", "x.ttl"], ["data", "versions", "y.ttl"]], "versions" ∉ p :=
  ⟨by decide,
    (c9_versions_excluded [["data", "x.ttl"], ["data", "versions", "y.ttl"]]
      versionsConfig [] (fun _ => []) (by decide)).1⟩

namespace SanityToTtl

/-- Namespace constants of sanity_to_ttl.py (lines 41-44) and the rdflib
namespace module. -/
def CURRIC : String := "https://w3id.org/uk/curriculum/core/"

def ENG : String := "https://w3id.org/uk/curriculum/england/"

def DCNS : String := "http://purl.org/dc/elements/1.1/"

def RDFNS : String := "http://www.w3.org/1999/02/22-rdf-syntax-ns#"

def RDFSNS : String := "http://www.w3.org/2000/01/rdf-schema#"

def OWLNS : String := "http://www.w3.org/2002/07/owl#"

def SKOSNS : String := "http://www.w3.org/2004/02/skos/core#"

def DCTERMSNS : String := "http://purl.org/dc/terms/"

def XSDNS : String := "http://www.w3.org/2001/XMLSchema#"

/-- Term of the curric namespace. -/
def curric (t : String) : String := CURRIC ++ t

/-- Term of the eng namespace, as in ENG followed by a document id. -/
def eng (t : String) : String := ENG ++ t

/-- Term of the skos namespace. -/
def skos (t : String) : String := SKOSNS ++ t

/-- Term of the rdfs namespace. -/
def rdfs (t : String) : String := RDFSNS ++ t

/-- Term of the dcterms namespace. -/
def dcterms (t : String) : String := DCTERMSNS ++ t

/-- Term of the xsd namespace. -/
def xsd (t : String) : String := XSDNS ++ t

/-- Term of the dc namespace. -/
def dc (t : String) : String := DCNS ++ t

/-- Term of the owl namespace. -/
def owl (t : String) : String := OWLNS ++ t

/-- Predicate rdf:type. -/
def rdfT : String := RDFNS ++ "type"

/-- Literal with the language tag en. -/
def litEn (v : String) : Node := Node.lit v "@en"

/-- Plain literal without tag. -/
def litPlain (v : String) : Node := Node.lit v ""

/-- Literal with a datatype URI. -/
def litTyped (v ty : String) : Node := Node.lit v ty

/-- Mirror of rdflib Graph.add: insert one triple into the graph set. -/
def addT (g : RDFGraph) (t : Triple) : RDFGraph := insert t g

/-- Sanity CMS document shape consumed by the converter (sanity_to_ttl.py):
JSON keys the code indexes unconditionally are total fields, keys probed with
an if-key-in-doc test are Option fields, a reference dict is an Option String
holding its _ref value when present (None models both a missing key target
and a dict without _ref), and reference arrays are lists of such; the id
field of get_slug is idCurrent, holding id.get of current (defaulted to the
empty string) when the id dict is present. The aims array holds each aim
dict's optional aimText. -/
structure Doc where
  _id : String := ""
  idCurrent : Option String := none
  label : String := ""
  description : String := ""
  prefLabel : String := ""
  definition : Option String := none
  scopeNote : Option String := none
  exampleText : Option String := none
  exampleUrl : Option String := none
  fullDescription : Option String := none
  sourceUrl : Option String := none
  lowerAgeBoundary : Int := 0
  upperAgeBoundary : Int := 0
  phase : Option (Option String) := none
  strand : Option (Option String) := none
  substrand : Option (Option String) := none
  contentDescriptor : Option (Option String) := none
  subject : Option (Option String) := none
  subsubject : Option (Option String) := none
  keyStage : Option (Option String) := none
  discipline : Option (Option String) := none
  disciplines : Option (List (Option String)) := none
  strands : Option (List (Option String)) := none
  contentDescriptors : Option (List (Option String)) := none
  aims : Option (List (Option String)) := none
  deriving DecidableEq, Repr

/-- Embedding of get_uri_from_id (sanity_to_ttl.py lines 116-120): strip the
drafts prefix and prepend the ENG namespace. -/
def get_uri_from_id (docId : String) : String :=
  ENG ++ pyReplace docId "drafts." ""

/-- Embedding of get_slug (lines 123-127). -/
def get_slug (doc : Doc) : String :=
  match doc.idCurrent with
  | some cur => cur
  | none => pyReplace doc._id "drafts." ""

/-- Embedding of resolve_reference (lines 130-135): a dict carrying _ref
resolves to the URI of the referenced document, anything else to None. -/
def resolve_reference (ref : Option String) : Option String :=
  ref.map get_uri_from_id

/-- Python truthiness of an optional string value: present and non-empty. -/
def truthy : Option String → Bool
  | some s => !(s == "")
  | none => false

/-- Embedding of add_ontology_header (lines 153-166). The today argument is
the value datetime.now returns formatted as at line 163: the source reads the
wall clock there, so the run date is an explicit parameter of the model. -/
def add_ontology_header (today : String) (uri title description : String)
    (version : String := "0.1.0") (g : RDFGraph) : RDFGraph :=
  let ontology_uri := uri
  let g := addT g ⟨ontology_uri, rdfT, Node.uri (owl "Ontology")⟩
  let g := addT g ⟨ontology_uri, rdfs "label", litEn title⟩
  let g := addT g ⟨ontology_uri, dc "title", litEn title⟩
  let g := addT g ⟨ontology_uri, rdfs "comment", litEn description⟩
  let g := addT g ⟨ontology_uri, owl "versionInfo", litPlain version⟩
  let g := addT g ⟨ontology_uri, dcterms "creator", litPlain "Department for Education"⟩
  let g := addT g ⟨ontology_uri, dcterms "created", litTyped today (xsd "date")⟩
  let g := addT g ⟨ontology_uri, dcterms "license",
    Node.uri "http://www.nationalarchives.gov.uk/doc/open-government-licence/version/3/"⟩
  let g := addT g ⟨ontology_uri, dcterms "rights", litEn "Crown Copyright"⟩
  addT g ⟨ontology_uri, owl "imports", Node.uri CURRIC⟩

/-- Additivity of a graph transformation: the result is the initial graph
together with a set of added triples that does not depend on the initial
graph. This is the formal reading of a straight-line mapping from an input
record to a fixed set of triples. -/
def Additive (f : RDFGraph → RDFGraph) : Prop :=
  ∀ g, f g = g ∪ f ∅

theorem Additive.comp {f h : RDFGraph → RDFGraph} (hf : Additive f)
    (hh : Additive h) : Additive (fun g => h (f g)) := by
  intro g
  show h (f g) = g ∪ h (f ∅)
  rw [hh (f g), hf g, hh (f ∅), Finset.union_assoc]

theorem foldl_additive {α : Type} (step : RDFGraph → α → RDFGraph)
    (hstep : ∀ d, Additive (fun g => step g d)) (l : List α) :
    Additive (fun g => l.foldl step g) := by
  induction l with
  | nil => intro g; simp
  | cons d rest ih =>
    intro g
    show rest.foldl step (step g d) = g ∪ rest.foldl step (step ∅ d)
    calc rest.foldl step (step g d)
        = step g d ∪ rest.foldl step ∅ := ih (step g d)
      _ = (g ∪ step ∅ d) ∪ rest.foldl step ∅ := by
          rw [show step g d = g ∪ step ∅ d from hstep d g]
      _ = g ∪ (step ∅ d ∪ rest.foldl step ∅) := by rw [Finset.union_assoc]
      _ = g ∪ rest.foldl step (step ∅ d) := by
          rw [show rest.foldl step (step ∅ d) = step ∅ d ∪ rest.foldl step ∅
            from ih (step ∅ d)]

/-- Conditional single add, the shape of the if-key-and-truthy guards in the
converters. -/
def addIf (b : Bool) (t : Triple) (g : RDFGraph) : RDFGraph :=
  if b then addT g t else g

/-- Conditional add for an optional reference field: the key-present test
followed by resolve_reference and the if-phase_uri guard, the shape of the
scalar reference blocks of the converters. -/
def addRefTriple (uri pred : String) (ref : Option (Option String))
    (g : RDFGraph) : RDFGraph :=
  match ref with
  | none => g
  | some r =>
    match resolve_reference r with
    | none => g
    | some ruri => addT g ⟨uri, pred, Node.uri ruri⟩

/-- Loop over a reference array adding one triple per resolvable reference,
the shape of the for-ref-in-array blocks of the converters. -/
def addRefTriples (uri pred : String) (refs : List (Option String))
    (g : RDFGraph) : RDFGraph :=
  refs.foldl (fun g r =>
    match resolve_reference r with
    | none => g
    | some ruri => addT g ⟨uri, pred, Node.uri ruri⟩) g

/-- Key-present guard around the reference-array loop. -/
def addRefArray (uri pred : String) (arr : Option (List (Option String)))
    (g : RDFGraph) : RDFGraph :=
  match arr with
  | none => g
  | some refs => addRefTriples uri pred refs g

/-- Loop over the aims array of convert_subsubjects (lines 353-356): one
hasAim triple per aim dict carrying aimText. -/
def addAimTriples (uri : String) (aims : List (Option String))
    (g : RDFGraph) : RDFGraph :=
  aims.foldl (fun g a =>
    match a with
    | none => g
    | some txt => addT g ⟨uri, curric "hasAim", litEn txt⟩) g

/-- Key-present guard around the aims loop. -/
def addAimArray (uri : String) (aims : Option (List (Option String)))
    (g : RDFGraph) : RDFGraph :=
  match aims with
  | none => g
  | some l => addAimTriples uri l g

/-- Body of the convert_phases loop for one document (lines 171-178). -/
def convertPhaseDoc (g : RDFGraph) (d : Doc) : RDFGraph :=
  let uri := get_uri_from_id (get_slug d)
  let g := addT g ⟨uri, rdfT, Node.uri (curric "Phase")⟩
  let g := addT g ⟨uri, rdfs "label", litEn d.label⟩
  let g := addT g ⟨uri, rdfs "comment", litEn d.description⟩
  let g := addT g ⟨uri, curric "lowerAgeBoundary",
    litTyped (toString d.lowerAgeBoundary) (xsd "nonNegativeInteger")⟩
  addT g ⟨uri, curric "upperAgeBoundary",
    litTyped (toString d.upperAgeBoundary) (xsd "positiveInteger")⟩

/-- Embedding of convert_phases (lines 169-178). -/
def convert_phases (data : List Doc) (g : RDFGraph) : RDFGraph :=
  data.foldl convertPhaseDoc g

/-- Body of the convert_key_stages loop for one document (lines 183-196). -/
def convertKeyStageDoc (g : RDFGraph) (d : Doc) : RDFGraph :=
  let uri := get_uri_from_id (get_slug d)
  let g := addT g ⟨uri, rdfT, Node.uri (curric "KeyStage")⟩
  let g := addT g ⟨uri, rdfs "label", litEn d.label⟩
  let g := addT g ⟨uri, rdfs "comment", litEn d.description⟩
  let g := addT g ⟨uri, curric "lowerAgeBoundary",
    litTyped (toString d.lowerAgeBoundary) (xsd "nonNegativeInteger")⟩
  let g := addT g ⟨uri, curric "upperAgeBoundary",
    litTyped (toString d.upperAgeBoundary) (xsd "positiveInteger")⟩
  addRefTriple uri (curric "isPartOf") d.phase g

/-- Embedding of convert_key_stages (lines 181-196). -/
def convert_key_stages (data : List Doc) (g : RDFGraph) : RDFGraph :=
  data.foldl convertKeyStageDoc g

/-- Body of the convert_disciplines loop for one document (lines 201-213);
the definition key is accessed unconditionally at line 207, totalised here
with the empty-string default. -/
def convertDisciplineDoc (g : RDFGraph) (d : Doc) : RDFGraph :=
  let uri := get_uri_from_id (get_slug d)
  let g := addT g ⟨uri, rdfT, Node.uri (skos "Concept")⟩
  let g := addT g ⟨uri, rdfT, Node.uri (curric "Discipline")⟩
  let g := addT g ⟨uri, skos "prefLabel", litEn d.prefLabel⟩
  let g := addT g ⟨uri, skos "definition", litEn (d.definition.getD "")⟩
  let g := addIf (truthy d.scopeNote)
    ⟨uri, skos "scopeNote", litEn (d.scopeNote.getD "")⟩ g
  let g := addT g ⟨uri, skos "topConceptOf", Node.uri (eng "knowledge-taxonomy")⟩
  addT g ⟨uri, skos "inScheme", Node.uri (eng "knowledge-taxonomy")⟩

/-- Embedding of convert_disciplines (lines 199-213). -/
def convert_disciplines (data : List Doc) (g : RDFGraph) : RDFGraph :=
  data.foldl convertDisciplineDoc g

/-- Body of the convert_subjects loop for one document (lines 218-230). -/
def convertSubjectDoc (g : RDFGraph) (d : Doc) : RDFGraph :=
  let uri := get_uri_from_id (get_slug d)
  let g := addT g ⟨uri, rdfT, Node.uri (curric "Subject")⟩
  let g := addT g ⟨uri, rdfs "label", litEn d.label⟩
  let g := addT g ⟨uri, rdfs "comment", litEn d.description⟩
  addRefArray uri (curric "hasDiscipline") d.disciplines g

/-- Embedding of convert_subjects (lines 216-230). -/
def convert_subjects (data : List Doc) (g : RDFGraph) : RDFGraph :=
  data.foldl convertSubjectDoc g

/-- Body of the convert_strands loop for one document (lines 235-251). -/
def convertStrandDoc (g : RDFGraph) (d : Doc) : RDFGraph :=
  let uri := get_uri_from_id (get_slug d)
  let g := addT g ⟨uri, rdfT, Node.uri (skos "Concept")⟩
  let g := addT g ⟨uri, rdfT, Node.uri (curric "Strand")⟩
  let g := addT g ⟨uri, skos "prefLabel", litEn d.prefLabel⟩
  let g := addIf (truthy d.definition)
    ⟨uri, skos "definition", litEn (d.definition.getD "")⟩ g
  let g := addRefTriple uri (skos "broader") d.discipline g
  addT g ⟨uri, skos "inScheme", Node.uri (eng "knowledge-taxonomy")⟩

/-- Embedding of convert_strands (lines 233-251). -/
def convert_strands (data : List Doc) (g : RDFGraph) : RDFGraph :=
  data.foldl convertStrandDoc g

/-- Body of the convert_substrands loop for one document (lines 256-272). -/
def convertSubstrandDoc (g : RDFGraph) (d : Doc) : RDFGraph :=
  let uri := get_uri_from_id (get_slug d)
  let g := addT g ⟨uri, rdfT, Node.uri (skos "Concept")⟩
  let g := addT g ⟨uri, rdfT, Node.uri (curric "SubStrand")⟩
  let g := addT g ⟨uri, skos "prefLabel", litEn d.prefLabel⟩
  let g := addIf (truthy d.definition)
    ⟨uri, skos "definition", litEn (d.definition.getD "")⟩ g
  let g := addRefTriple uri (skos "broader") d.strand g
  addT g ⟨uri, skos "inScheme", Node.uri (eng "knowledge-taxonomy")⟩

/-- Embedding of convert_substrands (lines 254-272). -/
def convert_substrands (data : List Doc) (g : RDFGraph) : RDFGraph :=
  data.foldl convertSubstrandDoc g

/-- Body of the convert_content_descriptors loop for one document
(lines 277-293). -/
def convertContentDescriptorDoc (g : RDFGraph) (d : Doc) : RDFGraph :=
  let uri := get_uri_from_id (get_slug d)
  let g := addT g ⟨uri, rdfT, Node.uri (skos "Concept")⟩
  let g := addT g ⟨uri, rdfT, Node.uri (curric "ContentDescriptor")⟩
  let g := addT g ⟨uri, skos "prefLabel", litEn d.prefLabel⟩
  let g := addIf (truthy d.definition)
    ⟨uri, skos "definition", litEn (d.definition.getD "")⟩ g
  let g := addRefTriple uri (skos "broader") d.substrand g
  addT g ⟨uri, skos "inScheme", Node.uri (eng "knowledge-taxonomy")⟩

/-- Embedding of convert_content_descriptors (lines 275-293). -/
def convert_content_descriptors (data : List Doc) (g : RDFGraph) : RDFGraph :=
  data.foldl convertContentDescriptorDoc g

/-- Body of the convert_content_subdescriptors loop for one document
(lines 298-321). -/
def convertContentSubdescriptorDoc (g : RDFGraph) (d : Doc) : RDFGraph :=
  let uri := get_uri_from_id (get_slug d)
  let g := addT g ⟨uri, rdfT, Node.uri (skos "Concept")⟩
  let g := addT g ⟨uri, rdfT, Node.uri (curric "ContentSubDescriptor")⟩
  let g := addT g ⟨uri, skos "prefLabel", litEn d.prefLabel⟩
  let g := addIf (truthy d.definition)
    ⟨uri, skos "definition", litEn (d.definition.getD "")⟩ g
  let g := addRefTriple uri (skos "broader") d.contentDescriptor g
  let g := addIf (truthy d.exampleText)
    ⟨uri, curric "example", litEn (d.exampleText.getD "")⟩ g
  let g := addIf (truthy d.exampleUrl)
    ⟨uri, curric "exampleURL", litTyped (d.exampleUrl.getD "") (xsd "anyURI")⟩ g
  addT g ⟨uri, skos "inScheme", Node.uri (eng "knowledge-taxonomy")⟩

/-- Embedding of convert_content_subdescriptors (lines 296-321). -/
def convert_content_subdescriptors (data : List Doc) (g : RDFGraph) : RDFGraph :=
  data.foldl convertContentSubdescriptorDoc g

/-- Body of the convert_subsubjects loop for one document (lines 326-356). -/
def convertSubsubjectDoc (g : RDFGraph) (d : Doc) : RDFGraph :=
  let uri := get_uri_from_id (get_slug d)
  let g := addT g ⟨uri, rdfT, Node.uri (curric "SubSubject")⟩
  let g := addT g ⟨uri, rdfs "label", litEn d.label⟩
  let g := addT g ⟨uri, rdfs "comment", litEn d.description⟩
  let g := addIf (truthy d.fullDescription)
    ⟨uri, dcterms "description", litEn (d.fullDescription.getD "")⟩ g
  let g := addIf (truthy d.sourceUrl)
    ⟨uri, dcterms "source", Node.uri (d.sourceUrl.getD "")⟩ g
  let g := addRefTriple uri (curric "isPartOf") d.subject g
  let g := addRefArray uri (curric "hasStrand") d.strands g
  addAimArray uri d.aims g

/-- Embedding of convert_subsubjects (lines 324-356). -/
def convert_subsubjects (data : List Doc) (g : RDFGraph) : RDFGraph :=
  data.foldl convertSubsubjectDoc g

/-- Body of the convert_schemes loop for one document (lines 361-385). -/
def convertSchemeDoc (g : RDFGraph) (d : Doc) : RDFGraph :=
  let uri := get_uri_from_id (get_slug d)
  let g := addT g ⟨uri, rdfT, Node.uri (curric "Scheme")⟩
  let g := addT g ⟨uri, rdfs "label", litEn d.label⟩
  let g := addT g ⟨uri, rdfs "comment", litEn d.description⟩
  let g := addRefTriple uri (curric "isPartOf") d.subsubject g
  let g := addRefTriple uri (curric "hasKeyStage") d.keyStage g
  addRefArray uri (curric "hasContentDescriptor") d.contentDescriptors g

/-- Embedding of convert_schemes (lines 359-385). -/
def convert_schemes (data : List Doc) (g : RDFGraph) : RDFGraph :=
  data.foldl convertSchemeDoc g

/-- Body of the convert_themes loop for one document (lines 390-397); the
definition key is accessed unconditionally at line 396. -/
def convertThemeDoc (g : RDFGraph) (d : Doc) : RDFGraph :=
  let uri := get_uri_from_id (get_slug d)
  let g := addT g ⟨uri, rdfT, Node.uri (skos "Concept")⟩
  let g := addT g ⟨uri, rdfT, Node.uri (curric "Theme")⟩
  let g := addT g ⟨uri, skos "prefLabel", litEn d.prefLabel⟩
  let g := addT g ⟨uri, skos "definition", litEn (d.definition.getD "")⟩
  addT g ⟨uri, skos "inScheme", Node.uri (eng "themes-scheme")⟩

/-- Embedding of convert_themes (lines 388-397). -/
def convert_themes (data : List Doc) (g : RDFGraph) : RDFGraph :=
  data.foldl convertThemeDoc g

theorem addT_additive (t : Triple) : Additive (fun g => addT g t) := by
  intro g
  ext x
  simp [addT]
  tauto

theorem addIf_additive (b : Bool) (t : Triple) : Additive (addIf b t) := by
  cases b
  · intro g; simp [addIf]
  · exact addT_additive t

theorem addRefTriple_additive (uri pred : String) (ref : Option (Option String)) :
    Additive (addRefTriple uri pred ref) := by
  rcases ref with _ | r
  · intro g; simp [addRefTriple]
  · rcases r with _ | rid
    · intro g; simp [addRefTriple, resolve_reference]
    · exact addT_additive _

theorem addRefTriples_additive (uri pred : String) (refs : List (Option String)) :
    Additive (addRefTriples uri pred refs) := by
  show Additive (fun g => refs.foldl _ g)
  refine foldl_additive _ ?_ refs
  intro r
  rcases r with _ | rid
  · intro g; simp [resolve_reference]
  · exact addT_additive _

theorem addRefArray_additive (uri pred : String)
    (arr : Option (List (Option String))) : Additive (addRefArray uri pred arr) := by
  rcases arr with _ | refs
  · intro g; simp [addRefArray]
  · exact addRefTriples_additive uri pred refs

theorem addAimTriples_additive (uri : String) (aims : List (Option String)) :
    Additive (addAimTriples uri aims) := by
  show Additive (fun g => aims.foldl _ g)
  refine foldl_additive _ ?_ aims
  intro a
  rcases a with _ | txt
  · intro g; simp
  · exact addT_additive _

theorem addAimArray_additive (uri : String)
    (aims : Option (List (Option String))) : Additive (addAimArray uri aims) := by
  rcases aims with _ | l
  · intro g; simp [addAimArray]
  · exact addAimTriples_additive uri l

theorem convertPhaseDoc_additive (d : Doc) :
    Additive (fun g => convertPhaseDoc g d) := by
  simp only [convertPhaseDoc]
  exact ((((addT_additive _).comp (addT_additive _)).comp (addT_additive _)).comp
    (addT_additive _)).comp (addT_additive _)

theorem convertKeyStageDoc_additive (d : Doc) :
    Additive (fun g => convertKeyStageDoc g d) := by
  simp only [convertKeyStageDoc]
  exact (((((addT_additive _).comp (addT_additive _)).comp (addT_additive _)).comp
    (addT_additive _)).comp (addT_additive _)).comp (addRefTriple_additive _ _ _)

theorem convertDisciplineDoc_additive (d : Doc) :
    Additive (fun g => convertDisciplineDoc g d) := by
  simp only [convertDisciplineDoc]
  exact ((((((addT_additive _).comp (addT_additive _)).comp (addT_additive _)).comp
    (addT_additive _)).comp (addIf_additive _ _)).comp (addT_additive _)).comp
    (addT_additive _)

theorem convertSubjectDoc_additive (d : Doc) :
    Additive (fun g => convertSubjectDoc g d) := by
  simp only [convertSubjectDoc]
  exact (((addT_additive _).comp (addT_additive _)).comp (addT_additive _)).comp
    (addRefArray_additive _ _ _)

theorem convertStrandDoc_additive (d : Doc) :
    Additive (fun g => convertStrandDoc g d) := by
  simp only [convertStrandDoc]
  exact (((((addT_additive _).comp (addT_additive _)).comp (addT_additive _)).comp
    (addIf_additive _ _)).comp (addRefTriple_additive _ _ _)).comp (addT_additive _)

theorem convertSubstrandDoc_additive (d : Doc) :
    Additive (fun g => convertSubstrandDoc g d) := by
  simp only [convertSubstrandDoc]
  exact (((((addT_additive _).comp (addT_additive _)).comp (addT_additive _)).comp
    (addIf_additive _ _)).comp (addRefTriple_additive _ _ _)).comp (addT_additive _)

theorem convertContentDescriptorDoc_additive (d : Doc) :
    Additive (fun g => convertContentDescriptorDoc g d) := by
  simp only [convertContentDescriptorDoc]
  exact (((((addT_additive _).comp (addT_additive _)).comp (addT_additive _)).comp
    (addIf_additive _ _)).comp (addRefTriple_additive _ _ _)).comp (addT_additive _)

theorem convertContentSubdescriptorDoc_additive (d : Doc) :
    Additive (fun g => convertContentSubdescriptorDoc g d) := by
  simp only [convertContentSubdescriptorDoc]
  exact (((((((addT_additive _).comp (addT_additive _)).comp (addT_additive _)).comp
    (addIf_additive _ _)).comp (addRefTriple_additive _ _ _)).comp
    (addIf_additive _ _)).comp (addIf_additive _ _)).comp (addT_additive _)

theorem convertSubsubjectDoc_additive (d : Doc) :
    Additive (fun g => convertSubsubjectDoc g d) := by
  simp only [convertSubsubjectDoc]
  exact (((((((addT_additive _).comp (addT_additive _)).comp (addT_additive _)).comp
    (addIf_additive _ _)).comp (addIf_additive _ _)).comp
    (addRefTriple_additive _ _ _)).comp (addRefArray_additive _ _ _)).comp
    (addAimArray_additive _ _)

theorem convertSchemeDoc_additive (d : Doc) :
    Additive (fun g => convertSchemeDoc g d) := by
  simp only [convertSchemeDoc]
  exact (((((addT_additive _).comp (addT_additive _)).comp (addT_additive _)).comp
    (addRefTriple_additive _ _ _)).comp (addRefTriple_additive _ _ _)).comp
    (addRefArray_additive _ _ _)

theorem convertThemeDoc_additive (d : Doc) :
    Additive (fun g => convertThemeDoc g d) := by
  simp only [convertThemeDoc]
  exact ((((addT_additive _).comp (addT_additive _)).comp (addT_additive _)).comp
    (addT_additive _)).comp (addT_additive _)

theorem add_ontology_header_additive (today uri title descr ver : String) :
    Additive (fun g => add_ontology_header today uri title descr ver g) := by
  simp only [add_ontology_header]
  exact (((((((((addT_additive _).comp (addT_additive _)).comp
    (addT_additive _)).comp (addT_additive _)).comp (addT_additive _)).comp
    (addT_additive _)).comp (addT_additive _)).comp (addT_additive _)).comp
    (addT_additive _)).comp (addT_additive _)

/-- C5 counterexample: add_ontology_header is not a function of the input
record alone — two runs on equal input (same ontology URI, title,
description, version, same empty graph) on different days add different
triple sets, because line 163 embeds the current date in the dcterms:created
literal. This refutes the claim that the set of added triples depends only on
the input record for every function covered, since the claim explicitly
covers add_ontology_header. -/
theorem c5_counterexample :
    add_ontology_header "2025-01-01" (eng "programme-structure")
        "National Curriculum for England - Programme Structure"
        "Programme structure defining phases, key stages, and year groups."
        "0.1.0" ∅
      ≠ add_ontology_header "2025-01-02" (eng "programme-structure")
        "National Curriculum for England - Programme Structure"
        "Programme structure defining phases, key stages, and year groups."
        "0.1.0" ∅ := by
  decide

/-- C5 amended: every convert function of the CMS-to-TTL converter is a
straight-line mapping from the input records to a fixed set of triples — on
any graph its result is the initial graph together with the set it produces
from the empty graph, a set determined solely by the input documents — and
add_ontology_header likewise adds a fixed set determined by its arguments
together with the current date, which enters only through the
dcterms:created literal. -/
theorem c5_convert_deterministic (data : List Doc) (g : RDFGraph)
    (today uri title descr ver : String) :
    convert_phases data g = g ∪ convert_phases data ∅
    ∧ convert_key_stages data g = g ∪ convert_key_stages data ∅
    ∧ convert_disciplines data g = g ∪ convert_disciplines data ∅
    ∧ convert_subjects data g = g ∪ convert_subjects data ∅
    ∧ convert_strands data g = g ∪ convert_strands data ∅
    ∧ convert_substrands data g = g ∪ convert_substrands data ∅
    ∧ convert_content_descriptors data g = g ∪ convert_content_descriptors data ∅
    ∧ convert_content_subdescriptors data g
        = g ∪ convert_content_subdescriptors data ∅
    ∧ convert_subsubjects data g = g ∪ convert_subsubjects data ∅
    ∧ convert_schemes data g = g ∪ convert_schemes data ∅
    ∧ convert_themes data g = g ∪ convert_themes data ∅
    ∧ add_ontology_header today uri title descr ver g
        = g ∪ add_ontology_header today uri title descr ver ∅ :=
  ⟨foldl_additive convertPhaseDoc convertPhaseDoc_additive data g,
   foldl_additive convertKeyStageDoc convertKeyStageDoc_additive data g,
   foldl_additive convertDisciplineDoc convertDisciplineDoc_additive data g,
   foldl_additive convertSubjectDoc convertSubjectDoc_additive data g,
   foldl_additive convertStrandDoc convertStrandDoc_additive data g,
   foldl_additive convertSubstrandDoc convertSubstrandDoc_additive data g,
   foldl_additive convertContentDescriptorDoc
     convertContentDescriptorDoc_additive data g,
   foldl_additive convertContentSubdescriptorDoc
     convertContentSubdescriptorDoc_additive data g,
   foldl_additive convertSubsubjectDoc convertSubsubjectDoc_additive data g,
   foldl_additive convertSchemeDoc convertSchemeDoc_additive data g,
   foldl_additive convertThemeDoc convertThemeDoc_additive data g,
   add_ontology_header_additive today uri title descr ver g⟩

/-- Output directory constant of sanity_to_ttl.py (line 47). -/
def OUTPUT_DIR : String := "data/national-curriculum-for-england"

/-- Subjects directory constant (line 48). -/
def SUBJECTS_DIR : String := OUTPUT_DIR ++ "/subjects"

/-- Observable resource events of a converter run: construction of a fresh
in-memory rdflib Graph (create_graph, lines 138-150) and a TTL file write
(write_ttl_file, lines 400-410). -/
inductive SEvent where
  | createGraph
  | writeFile (path : String)
  deriving DecidableEq, Repr

/-- Test for a file-write event. -/
def SEvent.isWrite : SEvent → Bool
  | .writeFile _ => true
  | .createGraph => false

/-- Graph-construction and file-write trace of generate_subject_files
(lines 529-605): when the filtered subject data holds no subject documents
the function returns at line 548 without touching a graph; otherwise it
creates the subject graph and writes the subject file (lines 551-564),
creates the taxonomy graph and writes the taxonomy file (lines 567-586), and
creates the schemes graph and writes the schemes file (lines 589-600). -/
def generate_subject_files_trace (subject : String) (numSubjectDocs : Nat) :
    List SEvent :=
  if numSubjectDocs = 0 then []
  else
    [SEvent.createGraph,
     SEvent.writeFile
       (SUBJECTS_DIR ++ "/" ++ subject ++ "/" ++ subject ++ "-subject.ttl"),
     SEvent.createGraph,
     SEvent.writeFile
       (SUBJECTS_DIR ++ "/" ++ subject ++ "/" ++ subject
         ++ "-knowledge-taxonomy.ttl"),
     SEvent.createGraph,
     SEvent.writeFile
       (SUBJECTS_DIR ++ "/" ++ subject ++ "/" ++ subject ++ "-schemes.ttl")]

/-- Graph-construction and file-write trace of sanity_to_ttl.main
(lines 608-694): the programme-structure graph is created and its file
written (lines 633-649); when the data carries a non-empty themes list the
themes graph is created and written (lines 652-667); then every discovered
subject is processed by generate_subject_files (lines 679-684). The subjects
argument pairs each discovered subject with the number of subject documents
in its filtered data. -/
def main_trace (hasThemes : Bool) (subjects : List (String × Nat)) :
    List SEvent :=
  [SEvent.createGraph, SEvent.writeFile (OUTPUT_DIR ++ "/programme-structure.ttl")]
  ++ (if hasThemes then
        [SEvent.createGraph, SEvent.writeFile (OUTPUT_DIR ++ "/themes.ttl")]
      else [])
  ++ (subjects.map (fun p => generate_subject_files_trace p.1 p.2)).flatten

theorem gen_trace_count (s : String) (n : Nat) :
    (generate_subject_files_trace s n).count SEvent.createGraph
      = (generate_subject_files_trace s n).countP SEvent.isWrite := by
  unfold generate_subject_files_trace
  split <;> rfl

theorem flatten_trace_count (subjects : List (String × Nat)) :
    ((subjects.map (fun p => generate_subject_files_trace p.1 p.2)).flatten).count
        SEvent.createGraph
      = ((subjects.map (fun p =>
          generate_subject_files_trace p.1 p.2)).flatten).countP SEvent.isWrite := by
  induction subjects with
  | nil => rfl
  | cons p rest ih =>
    simp only [List.map_cons, List.flatten_cons, List.count_append,
      List.countP_append, ih, gen_trace_count]

/-- C7 counterexample: a run of sanity_to_ttl.main over data containing
themes and one subject with one subject document constructs five graph
objects — the programme-structure graph, the themes graph and three
per-subject graphs — refuting the claim that no run of a component script
constructs more than one graph object. -/
theorem c7_counterexample :
    (main_trace true [("science", 1)]).count SEvent.createGraph = 5
    ∧ ¬(main_trace true [("science", 1)]).count SEvent.createGraph ≤ 1 := by
  decide

/-- C7 amended: the converter builds its in-memory graph objects within one
process run and discards them before the run ends, but a run constructs one
graph object per TTL file it writes — the programme-structure graph, an
optional themes graph, and three graphs per discovered subject — rather than
at most one: in every run of sanity_to_ttl.main the number of graph
constructions equals the number of file writes. -/
theorem c7_one_graph_per_file (hasThemes : Bool)
    (subjects : List (String × Nat)) :
    (main_trace hasThemes subjects).count SEvent.createGraph
      = (main_trace hasThemes subjects).countP SEvent.isWrite := by
  have hF := flatten_trace_count subjects
  have h1 : ([SEvent.createGraph,
      SEvent.writeFile (OUTPUT_DIR ++ "/programme-structure.ttl")]).count
        SEvent.createGraph = 1 := rfl
  have h2 : ([SEvent.createGraph,
      SEvent.writeFile (OUTPUT_DIR ++ "/programme-structure.ttl")]).countP
        SEvent.isWrite = 1 := rfl
  have h3 : ([SEvent.createGraph,
      SEvent.writeFile (OUTPUT_DIR ++ "/themes.ttl")]).count
        SEvent.createGraph = 1 := rfl
  have h4 : ([SEvent.createGraph,
      SEvent.writeFile (OUTPUT_DIR ++ "/themes.ttl")]).countP
        SEvent.isWrite = 1 := rfl
  cases hasThemes <;>
    simp only [main_trace, Bool.false_eq_true, eq_self_iff_true, if_true, if_false,
      List.count_append, List.countP_append, List.count_nil, List.countP_nil,
      hF, h1, h2, h3, h4]

end SanityToTtl

namespace DynamicSubjects

/-- The six component scripts of the repository. -/
inductive ScriptModule where
  | sanityToTtl
  | sanityToTtlDynamicSubjects
  | sanityToTtlEnhanced
  | mergeTtls
  | exportToNeo4j
  | validation
  deriving DecidableEq, Repr

/-- Reference to a function by defining module and name. -/
structure FnRef where
  module : ScriptModule
  fn : String
  deriving DecidableEq, Repr

/-- Component-script modules each script imports at runtime, read off
the importing statements of the six sources: the dynamic-subjects converter
pulls in sanity_to_ttl inside generate_subject_files (lines 175-181); every
other import in the six scripts names an external library (rdflib, pyshacl,
neo4j, pydantic, dotenv, json, os, sys, argparse, re, logging, pathlib,
datetime, typing, contextlib), so no other script can call a function of
another component. -/
def componentImports : ScriptModule → List ScriptModule
  | .sanityToTtlDynamicSubjects => [.sanityToTtl]
  | _ => []

/-- One unconditional call to a function of sanity_to_ttl. -/
def call (n : String) : List FnRef :=
  [⟨ScriptModule.sanityToTtl, n⟩]

/-- One call to a function of sanity_to_ttl guarded by a truthy check of a
subject_data section. -/
def callIf (b : Bool) (n : String) : List FnRef :=
  if b then call n else []

/-- Presence flags of the subject_data sections consulted by
generate_subject_files (sanity_to_ttl_dynamic_subjects.py lines 192-231). -/
structure SubjectDataFlags where
  hasSubjects : Bool
  hasSubsubjects : Bool
  hasDisciplines : Bool
  hasStrands : Bool
  hasSubstrands : Bool
  hasContentDescriptors : Bool
  hasContentSubdescriptors : Bool
  hasSchemes : Bool
  deriving DecidableEq, Repr

/-- Call segments of generate_subject_files
(sanity_to_ttl_dynamic_subjects.py lines 156-246) in source order: for each
of the three output files, create_graph, add_ontology_header, the convert
calls guarded by the presence of their data section, and write_ttl_file. -/
def generate_subject_files_segments (d : SubjectDataFlags) : List (List FnRef) :=
  [call "create_graph", call "add_ontology_header",
   callIf d.hasSubjects "convert_subjects",
   callIf d.hasSubsubjects "convert_subsubjects",
   call "write_ttl_file",
   call "create_graph", call "add_ontology_header",
   callIf d.hasDisciplines "convert_disciplines",
   callIf d.hasStrands "convert_strands",
   callIf d.hasSubstrands "convert_substrands",
   callIf d.hasContentDescriptors "convert_content_descriptors",
   callIf d.hasContentSubdescriptors "convert_content_subdescriptors",
   call "write_ttl_file",
   call "create_graph", call "add_ontology_header",
   callIf d.hasSchemes "convert_schemes",
   call "write_ttl_file"]

/-- Cross-module call trace of generate_subject_files: after the
runtime importing of sanity_to_ttl (lines 175-181), the segments above run
in order. -/
def generate_subject_files_calls (d : SubjectDataFlags) : List FnRef :=
  (generate_subject_files_segments d).flatten

theorem call_module {r : FnRef} {n : String} (h : r ∈ call n) :
    r.module = ScriptModule.sanityToTtl := by
  simp only [call, List.mem_singleton] at h
  subst h
  rfl

theorem callIf_module {r : FnRef} {b : Bool} {n : String} (h : r ∈ callIf b n) :
    r.module = ScriptModule.sanityToTtl := by
  cases b
  · simp [callIf] at h
  · exact call_module h

/-- C3 counterexample: generate_subject_files of the dynamic-subjects
converter invokes create_graph, a function defined in sanity_to_ttl.py — a
different component script — on every run, refuting the claim that no
component script calls another at runtime. -/
theorem c3_counterexample :
    FnRef.mk ScriptModule.sanityToTtl "create_graph"
        ∈ generate_subject_files_calls ⟨false, false, false, false, false,
            false, false, false⟩
    ∧ FnRef.mk ScriptModule.sanityToTtl "write_ttl_file"
        ∈ generate_subject_files_calls ⟨false, false, false, false, false,
            false, false, false⟩
    ∧ ScriptModule.sanityToTtl ≠ ScriptModule.sanityToTtlDynamicSubjects := by
  decide

/-- C3 amended: among the six component scripts only the dynamic-subjects
converter calls another component script at runtime — its
generate_subject_files imports sanity_to_ttl and invokes its create_graph,
add_ontology_header, convert functions and write_ttl_file — while no other
script imports any component module, so every runtime call it makes targets
an external library. -/
theorem c3_cross_module_calls (d : SubjectDataFlags) :
    (∀ m, m ≠ ScriptModule.sanityToTtlDynamicSubjects → componentImports m = [])
    ∧ componentImports ScriptModule.sanityToTtlDynamicSubjects
        = [ScriptModule.sanityToTtl]
    ∧ (∀ r ∈ generate_subject_files_calls d,
        r.module = ScriptModule.sanityToTtl)
    ∧ FnRef.mk ScriptModule.sanityToTtl "create_graph"
        ∈ generate_subject_files_calls d := by
  refine ⟨?_, rfl, ?_, ?_⟩
  · intro m hm
    cases m <;> first | rfl | exact absurd rfl hm
  · intro r hr
    obtain ⟨seg, hseg, hr⟩ := List.mem_flatten.mp hr
    simp only [generate_subject_files_segments, List.mem_cons,
      List.not_mem_nil, or_false] at hseg
    rcases hseg with rfl | rfl | rfl | rfl | rfl | rfl | rfl | rfl | rfl |
      rfl | rfl | rfl | rfl | rfl | rfl | rfl | rfl <;>
      first | exact call_module hr | exact callIf_module hr
  · exact List.mem_flatten.mpr ⟨call "create_graph",
      by simp [generate_subject_files_segments], by simp [call]⟩

end DynamicSubjects

namespace Validation

/-- The five target files of validation.py (lines 11-17). -/
def VALIDATION_TARGETS : List String :=
  ["data/england/programme-structure.ttl",
   "data/england/themes.ttl",
   "data/england/subjects/science/science-subject.ttl",
   "data/england/subjects/science/science-knowledge-taxonomy.ttl",
   "data/england/subjects/science/science-schemes.ttl"]

/-- Observable validation actions: a Turtle syntax check of one file and the
SHACL validation of the combined dataset. -/
inductive VAction where
  | syntaxCheck (file : String)
  | shaclValidate
  deriving DecidableEq, Repr

/-- Embedding of check_syntax (validation.py lines 20-30) over the parse
oracle syntaxOk: Graph.parse either succeeds (True) or raises, and the
handler at lines 28-30 turns the exception into False. -/
def check_syntax (syntaxOk : String → Bool) (file : String) : Bool :=
  syntaxOk file

/-- Embedding of the generator expression all of line 64: files are
syntax-checked in order and the scan stops at the first failure, as the
Python builtin all short-circuits its generator argument. Returns the overall
result and the trace of checks performed. -/
def allCheck (syntaxOk : String → Bool) : List String → Bool × List VAction
  | [] => (true, [])
  | f :: rest =>
    if check_syntax syntaxOk f then
      let r := allCheck syntaxOk rest
      (r.1, VAction.syntaxCheck f :: r.2)
    else (false, [VAction.syntaxCheck f])

/-- Result of the pyshacl validate call on the combined dataset: Except.ok
with the conforms flag when the library returns, Except.error when it
raises. -/
abbrev ShaclResult := Except String Bool

/-- Exit code and action trace of validation.main (lines 57-113): the five
targets are syntax-checked with short-circuit; on any failure main prints and
exits 1 (lines 66-68) before any SHACL validation; otherwise the combined
file is written and SHACL validation runs once (lines 77-99), the temporary
file is removed by the finally block, and main exits 0 exactly when the
combined dataset conforms (lines 105-113). An exception raised by validate
propagates out of main, which has no handler for it, and terminates the
interpreter with exit code 1. -/
def validation_main (syntaxOk : String → Bool) (shacl : ShaclResult) :
    Nat × List VAction :=
  let s := allCheck syntaxOk VALIDATION_TARGETS
  if !s.1 then (1, s.2)
  else
    match shacl with
    | .error _ => (1, s.2 ++ [VAction.shaclValidate])
    | .ok conforms => (if conforms then 0 else 1, s.2 ++ [VAction.shaclValidate])

theorem allCheck_fst (syntaxOk : String → Bool) :
    ∀ files : List String,
      (allCheck syntaxOk files).1 = true ↔ ∀ f ∈ files, syntaxOk f = true := by
  intro files
  induction files with
  | nil => simp [allCheck]
  | cons f rest ih =>
    by_cases h : check_syntax syntaxOk f
    · have h' : syntaxOk f = true := h
      simp [allCheck, h, ih, h']
    · have h' : syntaxOk f = false := by simpa [ check_syntax] using h
      simp [allCheck, h, h']

theorem allCheck_trace (syntaxOk : String → Bool) :
    ∀ files : List String, VAction.shaclValidate ∉ (allCheck syntaxOk files).2 := by
  intro files
  induction files with
  | nil => simp [allCheck]
  | cons f rest ih =>
    by_cases h : check_syntax syntaxOk f
    · simp [allCheck, h, ih]
    · simp [allCheck, h]

/-- C6: validation.main exits with code 0 exactly when every one of the five
target files passes the Turtle syntax check and the combined dataset passes
SHACL validation; and when any syntax check fails, main exits with code 1
without performing any SHACL validation. -/
theorem c6_validation_exit (syntaxOk : String → Bool) (shacl : ShaclResult) :
    ((validation_main syntaxOk shacl).1 = 0 ↔
      (∀ f ∈ VALIDATION_TARGETS, syntaxOk f = true) ∧ shacl = Except.ok true)
    ∧ ((∃ f ∈ VALIDATION_TARGETS, syntaxOk f = false) →
        (validation_main syntaxOk shacl).1 = 1
        ∧ VAction.shaclValidate ∉ (validation_main syntaxOk shacl).2) := by
  constructor
  · by_cases hs : (allCheck syntaxOk VALIDATION_TARGETS).1
    · have hall := (allCheck_fst syntaxOk VALIDATION_TARGETS).mp hs
      rcases shacl with m | conforms
      · simp [validation_main, hs, hall]
      · cases conforms
        · simp [validation_main, hs, hall]
        · simp [validation_main, hs, hall]
          exact hall
    · have hfail : ¬∀ f ∈ VALIDATION_TARGETS, syntaxOk f = true :=
        fun hall => hs ((allCheck_fst syntaxOk VALIDATION_TARGETS).mpr hall)
      simp only [validation_main, Bool.not_eq_true] at hs
      simp [validation_main, hs, hfail]
  · intro ⟨f, hf, hfail⟩
    have hs : (allCheck syntaxOk VALIDATION_TARGETS).1 = false := by
      rcases hb : (allCheck syntaxOk VALIDATION_TARGETS).1 with _ | _
      · rfl
      · have := (allCheck_fst syntaxOk VALIDATION_TARGETS).mp hb f hf
        rw [hfail] at this
        cases this
    refine ⟨by simp [validation_main, hs], ?_⟩
    have := allCheck_trace syntaxOk VALIDATION_TARGETS
    simp [validation_main, hs]
    exact this

theorem c6_validation_exit_witness :
    (∃ f ∈ VALIDATION_TARGETS, (fun _ => false : String → Bool) f = false)
    ∧ (validation_main (fun _ => false) (Except.ok true)).1 = 1
    ∧ VAction.shaclValidate ∉ (validation_main (fun _ => false) (Except.ok true)).2 :=
  ⟨⟨"data/england/themes.ttl", by decide, rfl⟩,
    (c6_validation_exit (fun _ => false) (Except.ok true)).2
      ⟨"data/england/themes.ttl", by decide, rfl⟩⟩

/-- Filesystem state as the set of existing paths. -/
abbrev FS := Finset String

/-- Path of the temporary combined file (validation.py line 77). -/
def tempCombinedPath : String := "temp_combined.ttl"

/-- Outcome of the SHACL-validation stage. -/
inductive StageOutcome where
  | conforms
  | nonconforms
  | raised (msg : String)
  deriving DecidableEq, Repr

/-- Embedding of the SHACL stage of validation.main (lines 77-103) acting on
the filesystem: combined.open creates the temporary file (a read_text failure
while concatenating, modelled by writeOk false, can still leave it created),
validate then conforms, reports nonconformance, or raises; in every one of
these cases the finally block (lines 101-103) removes the temporary file when
it exists before the outcome propagates. -/
def shacl_stage (fs0 : FS) (writeOk : Bool) (shacl : ShaclResult) :
    FS × StageOutcome :=
  let fs1 := insert tempCombinedPath fs0
  let outcome :=
    if !writeOk then StageOutcome.raised "combining the files raised"
    else
      match shacl with
      | .ok true => StageOutcome.conforms
      | .ok false => StageOutcome.nonconforms
      | .error m => StageOutcome.raised m
  let fs2 := if tempCombinedPath ∈ fs1 then fs1.erase tempCombinedPath else fs1
  (fs2, outcome)

/-- C10: the temporary combined file does not exist after the
SHACL-validation stage completes — whether validation succeeds, reports
nonconformance, or raises — and no other path's existence is changed by the
stage. -/
theorem c10_temp_combined_removed (fs0 : FS) (writeOk : Bool)
    (shacl : ShaclResult) :
    tempCombinedPath ∉ (shacl_stage fs0 writeOk shacl).1
    ∧ ∀ p : String, p ≠ tempCombinedPath →
        (p ∈ (shacl_stage fs0 writeOk shacl).1 ↔ p ∈ fs0) := by
  constructor
  · simp [shacl_stage]
  · intro p hp
    simp [shacl_stage, hp]

theorem c10_temp_combined_removed_witness :
    tempCombinedPath ∉
      (shacl_stage {"data/england/themes.ttl"} true (Except.ok true)).1
    ∧ ("data/england/themes.ttl" ≠ tempCombinedPath)
    ∧ ("data/england/themes.ttl"
        ∈ (shacl_stage {"data/england/themes.ttl"} true (Except.ok true)).1
      ↔ "data/england/themes.ttl" ∈ ({"data/england/themes.ttl"} : FS)) :=
  ⟨(c10_temp_combined_removed {"data/england/themes.ttl"} true (Except.ok true)).1,
    by decide,
    (c10_temp_combined_removed {"data/england/themes.ttl"} true
      (Except.ok true)).2 "data/england/themes.ttl" (by decide)⟩

end Validation
